import Mathlib

/-!
Verification development for the CSV ingestion core (`CSVService`) of the
point-prevalence-survey backend.  The definitions below are a shallow
embedding of the report-returning service variant (the one that produces an
`UploadResult`): the date parser `parseDate`, the key normalizer embedded in
the record parsers, the six record parsers, and the six import entry points
`ImportPatients`, `ImportAntibiotics`, `ImportAntibioticDetails`,
`ImportIndications`, `ImportOptionalVars`, `ImportSpecimens`.

Modelling conventions:
- Go strings are Lean `String`s (in this toolchain a `String` wraps a
  `List Char`); character-level work is done on `String.data`.
- The storage collaborator (gorm) is modelled explicitly: a `DB` value holds
  the six entity collections plus two key lists describing the opaque failure
  behaviour of the driver (`lookupFailKeys`: keys whose `First` lookup fails
  with an error other than `gorm.ErrRecordNotFound`; `createFailKeys`: keys
  whose `Create` fails).  The opaque text of such a driver error (printed via
  `%v` in the Go code) is modelled as the fixed string `dbErrText`.
- Go `int` counters (only ever incremented from 0) are `Nat`; Go `int` fields
  parsed with `strconv.Atoi` are `Int` (overflow of 64-bit ints is not
  modelled); Go `float64` fields parsed with `strconv.ParseFloat` are `Rat`
  (IEEE rounding is not modelled; no claim inspects a float value).
- `time.Time` values are `RawDT` records; every recognized format is UTC, so
  a `RawDT` determines the absolute instant.  The zero `time.Time` is
  `zeroTime` (January 1, year 1, 00:00:00 UTC).
-/

namespace PPS

/-! ### Character and number helpers (strconv / time internals) -/

/-- Value of a decimal digit character, `none` for non-digits. -/
def digitVal (c : Char) : Option Nat :=
  if '0' ≤ c ∧ c ≤ '9' then some (c.toNat - '0'.toNat) else none

/-- Decimal digit test, as used by Go's `time` and `strconv` parsing. -/
def isDigitC (c : Char) : Bool := (digitVal c).isSome

/-- Accumulate a run of decimal digits (Go `atoi` on an all-digit slice);
fails on the first non-digit. -/
def digitsValAux : List Char → Nat → Option Nat
  | [], acc => some acc
  | c :: rest, acc =>
    match digitVal c with
    | some d => digitsValAux rest (acc * 10 + d)
    | none => none

/-- Go `strconv.Atoi`: optional sign followed by at least one digit
(64-bit overflow is not modelled). -/
def goAtoi (s : String) : Option Int :=
  match s.data with
  | [] => none
  | '+' :: rest =>
    if rest = [] then none else (digitsValAux rest 0).map Int.ofNat
  | '-' :: rest =>
    if rest = [] then none else (digitsValAux rest 0).map (fun n => -(Int.ofNat n))
  | l => (digitsValAux l 0).map Int.ofNat

/-- Numeric value of an all-digit list (most significant first); non-digits
contribute 0 (callers only apply this to digit runs). -/
def digitsToNat (l : List Char) : Nat :=
  l.foldl (fun a c => a * 10 + ((digitVal c).getD 0)) 0

/-- Core of Go `strconv.ParseFloat` after the optional sign: decimal digits,
optional fraction, optional decimal exponent.  The value is modelled as an
exact rational (hex floats, Inf and NaN spellings are not modelled; no claim
inspects a float value). -/
def parseFloatCore (l : List Char) : Option Rat :=
  let ipr := l.span isDigitC
  let fpr :=
    match ipr.2 with
    | '.' :: r => r.span isDigitC
    | _ => ([], ipr.2)
  if ipr.1 = [] ∧ fpr.1 = [] then none
  else
    let mant : Rat :=
      (digitsToNat ipr.1 : Rat) + (digitsToNat fpr.1 : Rat) / ((10 : Rat) ^ fpr.1.length)
    match fpr.2 with
    | [] => some mant
    | e :: r3 =>
      if e = 'e' ∨ e = 'E' then
        let sr : Bool × List Char :=
          match r3 with
          | '+' :: r => (true, r)
          | '-' :: r => (false, r)
          | r => (true, r)
        let edr := sr.2.span isDigitC
        if edr.1 = [] ∨ edr.2 ≠ [] then none
        else
          some (if sr.1 then mant * (10 : Rat) ^ (digitsToNat edr.1)
                else mant / ((10 : Rat) ^ (digitsToNat edr.1)))
      else none

/-- Go `strconv.ParseFloat` (decimal forms), see `parseFloatCore`. -/
def goParseFloat (s : String) : Option Rat :=
  match s.data with
  | [] => none
  | '+' :: r => parseFloatCore r
  | '-' :: r => (parseFloatCore r).map Neg.neg
  | l => parseFloatCore l

/-! ### The date parser (`parseDate`)

Go's `time.Parse` is tried over a fixed, ordered list of twelve layout
strings.  Each layout is embedded as a list of tokens; `runToks` follows the
relevant part of Go's parsing algorithm: two-digit zero-padded layout
elements (`01`, `02`, `04`, `05`) require exactly two digits, the hour
element (`15`) accepts one or two digits, the year (`2006`) exactly four
digits, a fractional-seconds element (`.000` / `.000000`) requires a dot and
exactly that many digits but is skipped silently when fewer characters
remain, literals must match exactly, the whole input must be consumed, and
the field values are range-checked (month 1..12, day against the Gregorian
month length, hour 0..23, minute and second 0..59). -/

/-- A Go `time.Parse` result before validation: calendar fields plus
nanoseconds.  Defaults are Go's (year 0, January 1, midnight). -/
structure RawDT where
  year : Nat := 0
  month : Nat := 1
  day : Nat := 1
  hour : Nat := 0
  minute : Nat := 0
  second : Nat := 0
  nanos : Nat := 0
deriving DecidableEq, Repr

/-- The zero `time.Time` (January 1, year 1, 00:00:00 UTC), returned by
`parseDate` when every format fails. -/
def zeroTime : RawDT := { year := 1, month := 1, day := 1 }

/-- Tokens of the twelve recognized layout strings. -/
inductive DTok where
  | year4
  | month2
  | day2
  | hourNum
  | minute2
  | second2
  | frac (n : Nat)
  | lit (c : Char)
deriving DecidableEq, Repr

/-- Exactly two digits (Go `getnum` with `fixed = true`). -/
def parseNum2 : List Char → Option (Nat × List Char)
  | c1 :: c2 :: rest =>
    match digitVal c1, digitVal c2 with
    | some d1, some d2 => some (d1 * 10 + d2, rest)
    | _, _ => none
  | _ => none

/-- Exactly four digits (Go's `2006` year element). -/
def parseNum4 : List Char → Option (Nat × List Char)
  | c1 :: c2 :: c3 :: c4 :: rest =>
    match digitVal c1, digitVal c2, digitVal c3, digitVal c4 with
    | some d1, some d2, some d3, some d4 =>
      some (((d1 * 10 + d2) * 10 + d3) * 10 + d4, rest)
    | _, _, _, _ => none
  | _ => none

/-- One or two digits (Go `getnum` with `fixed = false`, used for `15`). -/
def parseHourNum : List Char → Option (Nat × List Char)
  | [] => none
  | c1 :: rest =>
    match digitVal c1 with
    | none => none
    | some d1 =>
      match rest with
      | c2 :: rest2 =>
        match digitVal c2 with
        | some d2 => some (d1 * 10 + d2, rest2)
        | none => some (d1, rest)
      | [] => some (d1, [])

/-- Exactly `n` digits, most significant first. -/
def parseFracDigits : Nat → List Char → Option (Nat × List Char)
  | 0, rest => some (0, rest)
  | n + 1, c :: rest =>
    match digitVal c with
    | some d => (parseFracDigits n rest).map (fun p => (d * 10 ^ n + p.1, p.2))
    | none => none
  | _ + 1, [] => none

/-- Run a token list over the input, threading the partially-filled `RawDT`;
the whole input must be consumed. -/
def runToksAux : List DTok → List Char → RawDT → Option RawDT
  | [], input, acc => if input = [] then some acc else none
  | .year4 :: ts, input, acc =>
    match parseNum4 input with
    | some vr => runToksAux ts vr.2 { acc with year := vr.1 }
    | none => none
  | .month2 :: ts, input, acc =>
    match parseNum2 input with
    | some vr => runToksAux ts vr.2 { acc with month := vr.1 }
    | none => none
  | .day2 :: ts, input, acc =>
    match parseNum2 input with
    | some vr => runToksAux ts vr.2 { acc with day := vr.1 }
    | none => none
  | .hourNum :: ts, input, acc =>
    match parseHourNum input with
    | some vr => runToksAux ts vr.2 { acc with hour := vr.1 }
    | none => none
  | .minute2 :: ts, input, acc =>
    match parseNum2 input with
    | some vr => runToksAux ts vr.2 { acc with minute := vr.1 }
    | none => none
  | .second2 :: ts, input, acc =>
    match parseNum2 input with
    | some vr => runToksAux ts vr.2 { acc with second := vr.1 }
    | none => none
  | .frac n :: ts, input, acc =>
    if n + 1 ≤ input.length then
      match input with
      | '.' :: rest =>
        match parseFracDigits n rest with
        | some vr => runToksAux ts vr.2 { acc with nanos := vr.1 * 10 ^ (9 - n) }
        | none => none
      | _ => none
    else
      runToksAux ts input acc
  | .lit c :: ts, input, acc =>
    match input with
    | c0 :: rest => if c0 = c then runToksAux ts rest acc else none
    | [] => none

/-- Gregorian month length (Go `daysIn`). -/
def daysInMonth (year month : Nat) : Nat :=
  if month = 2 then
    if year % 4 = 0 ∧ (year % 100 ≠ 0 ∨ year % 400 = 0) then 29 else 28
  else if month = 4 ∨ month = 6 ∨ month = 9 ∨ month = 11 then 30
  else 31

/-- Go `time.Parse`'s range validation of the parsed fields. -/
def validRanges (a : RawDT) : Bool :=
  decide (1 ≤ a.month ∧ a.month ≤ 12 ∧ 1 ≤ a.day ∧ a.day ≤ daysInMonth a.year a.month ∧
    a.hour ≤ 23 ∧ a.minute ≤ 59 ∧ a.second ≤ 59)

/-- Go `time.Parse` of one layout: token run plus range validation. -/
def runToks (f : List DTok) (input : List Char) : Option RawDT :=
  match runToksAux f input {} with
  | some a => if validRanges a then some a else none
  | none => none

/-- Layout `2006-01-02T15:04:05.000Z` (ISO 8601 with milliseconds). -/
def fmtISOMilliZ : List DTok :=
  [.year4, .lit '-', .month2, .lit '-', .day2, .lit 'T', .hourNum, .lit ':',
   .minute2, .lit ':', .second2, .frac 3, .lit 'Z']

/-- Layout `2006-01-02T15:04:05Z` (ISO 8601 without milliseconds). -/
def fmtISOSecZ : List DTok :=
  [.year4, .lit '-', .month2, .lit '-', .day2, .lit 'T', .hourNum, .lit ':',
   .minute2, .lit ':', .second2, .lit 'Z']

/-- Layout `2006-01-02T15:04:05` (ISO 8601 without timezone). -/
def fmtISOSec : List DTok :=
  [.year4, .lit '-', .month2, .lit '-', .day2, .lit 'T', .hourNum, .lit ':',
   .minute2, .lit ':', .second2]

/-- Layout `2006-01-02 15:04:05` (standard datetime). -/
def fmtSpaceSec : List DTok :=
  [.year4, .lit '-', .month2, .lit '-', .day2, .lit ' ', .hourNum, .lit ':',
   .minute2, .lit ':', .second2]

/-- Layout `2006-01-02` (date only). -/
def fmtDateOnly : List DTok :=
  [.year4, .lit '-', .month2, .lit '-', .day2]

/-- Layout `01/02/2006` (US format). -/
def fmtUS : List DTok :=
  [.month2, .lit '/', .day2, .lit '/', .year4]

/-- Layout `02/01/2006` (European format). -/
def fmtEU : List DTok :=
  [.day2, .lit '/', .month2, .lit '/', .year4]

/-- Layout `2006/01/02` (alternative format). -/
def fmtYMDSlash : List DTok :=
  [.year4, .lit '/', .month2, .lit '/', .day2]

/-- Layout `2006-01-02 15:04:05.000` (with milliseconds). -/
def fmtSpaceMilli : List DTok := fmtSpaceSec ++ [.frac 3]

/-- Layout `2006-01-02 15:04:05.000000` (with microseconds). -/
def fmtSpaceMicro : List DTok := fmtSpaceSec ++ [.frac 6]

/-- Layout `2006-01-02T15:04:05.000000Z` (ISO with microseconds). -/
def fmtISOMicroZ : List DTok :=
  [.year4, .lit '-', .month2, .lit '-', .day2, .lit 'T', .hourNum, .lit ':',
   .minute2, .lit ':', .second2, .frac 6, .lit 'Z']

/-- Layout `2006-01-02T15:04:05.000000` (ISO with microseconds, no timezone). -/
def fmtISOMicro : List DTok :=
  [.year4, .lit '-', .month2, .lit '-', .day2, .lit 'T', .hourNum, .lit ':',
   .minute2, .lit ':', .second2, .frac 6]

/-- The fixed, ordered format list of `parseDate`. -/
def goDateFormats : List (List DTok) :=
  [fmtISOMilliZ, fmtISOSecZ, fmtISOSec, fmtSpaceSec, fmtDateOnly, fmtUS,
   fmtEU, fmtYMDSlash, fmtSpaceMilli, fmtSpaceMicro, fmtISOMicroZ, fmtISOMicro]

/-- The first format whose `time.Parse` succeeds wins. -/
def firstMatch : List (List DTok) → List Char → Option RawDT
  | [], _ => none
  | f :: fs, s =>
    match runToks f s with
    | some a => some a
    | none => firstMatch fs s

/-- Character-level body of `parseDate`. -/
def parseDateL (s : List Char) : RawDT :=
  if s = [] then zeroTime else (firstMatch goDateFormats s).getD zeroTime

/-- `parseDate`: empty input and total failure both yield the zero time. -/
def parseDate (s : String) : RawDT := parseDateL s.data

/-! ### The key normalizer

Several record parsers share this fragment:

    if strings.Contains(key, "/Antibioticform/") {
        parts := strings.Split(key, "/Antibioticform/")
        if len(parts) > 0 { out = parts[0] }
    } else { out = key }

`strings.Split` with a non-empty separator always returns at least one part,
and `parts[0]` is the prefix of `key` before the first occurrence of the
separator, so the fragment is embedded as: if the marker occurs, take the
prefix before its first occurrence, else return the input unchanged. -/

/-- Whether `pat` is an initial segment of the input (Go `HasPrefix`). -/
def startsWithL : List Char → List Char → Bool
  | [], _ => true
  | _ :: _, [] => false
  | p :: ps, c :: cs => p = c && startsWithL ps cs

/-- Index of the first occurrence of `pat` (Go `strings.Index`, with `none`
for Go's -1). -/
def indexOfL (pat : List Char) : List Char → Option Nat
  | [] => if pat = [] then some 0 else none
  | c :: rest =>
    if startsWithL pat (c :: rest) then some 0 else (indexOfL pat rest).map (· + 1)

/-- Go `strings.Contains`. -/
def containsL (pat s : List Char) : Bool := (indexOfL pat s).isSome

/-- The fixed form-marker substring. -/
def formMarker : String := "/Antibioticform/"

/-- The key normalization fragment shared by the record parsers (see the
section comment above). -/
def normalizeKey (key : String) : String :=
  if containsL formMarker.data key.data then
    String.mk (key.data.take ((indexOfL formMarker.data key.data).getD 0))
  else key

/-! ### Entity records

The `models` package is not among the provided sources; the field sets and
types below are reconstructed from the parsers' assignments in the service
file (every field the report-returning parser variant assigns, with Go zero
values as defaults), matching the entity descriptions of the spec. -/

/-- Patient record, as populated by `parsePatientRecord`. -/
structure Patient where
  ID : String := ""
  InstanceID : String := ""
  SubmissionDate : RawDT := zeroTime
  Region : String := ""
  District : String := ""
  Subcounty : String := ""
  Facility : String := ""
  LevelOfCare : String := ""
  Ownership : String := ""
  WardName : String := ""
  WardTotalPatients : Int := 0
  WardEligiblePatients : Int := 0
  SurveyDate : RawDT := zeroTime
  PatientInitials : String := ""
  Code : String := ""
  RandNum : Int := 0
  PatientCode : String := ""
  ShowCode : String := ""
  IsThePatientAnInfant : String := ""
  AgeMonths : Int := 0
  AgeYears : Int := 0
  PreTermBirth : String := ""
  Gender : String := ""
  Weight : Rat := 0
  WeightBirthKg : Rat := 0
  AdmissionDate : RawDT := zeroTime
  SurgerySinceAdmission : String := ""
  UrinaryCatheter : String := ""
  PeripheralVascularCatheter : String := ""
  CentralVascularCatheter : String := ""
  Intubation : String := ""
  PatientOnAntibiotic : String := ""
  PatientNumberAntibiotics : Int := 0
  MalariaStatus : String := ""
  TuberculosisStatus : String := ""
  HIVStatus : String := ""
  HIVOnART : String := ""
  HIVCD4Count : String := ""
  HIVViralLoad : String := ""
  Diabetes : String := ""
  MalnutritionStatus : String := ""
  Hypertension : String := ""
  ReferredFrom : String := ""
  Hospitalization90Days : String := ""
  TypeSurgerySinceAdmission : String := ""
  AdditionalComment : String := ""
  Comments : String := ""
  SubmitterID : String := ""
  SubmitterName : String := ""
  AttachmentsPresent : String := ""
  AttachmentsExpected : String := ""
  Status : String := ""
  ReviewState : String := ""
  DeviceID : String := ""
  Edits : String := ""
  FormVersion : String := ""
deriving DecidableEq, Repr

/-- Antibiotic record, as populated by `parseAntibioticRecord`. -/
structure Antibiotic where
  ID : String := ""
  ParentKey : String := ""
  AntibioticINNName : String := ""
  OtherAntibiotic : String := ""
  ATCCode : String := ""
  AntibioticClass : String := ""
  AntibioticAwareClassification : String := ""
  AntibioticWrittenInINN : String := ""
  StartDateAntibiotic : RawDT := zeroTime
  UnitDose : Rat := 0
  UnitDosesCombination : String := ""
  UnitDoseMeasureUnit : String := ""
  UnitDoseFrequency : String := ""
  AdministrationRoute : String := ""
deriving DecidableEq, Repr

/-- AntibioticDetails record, as populated by `parseAntibioticDetailsRecord`. -/
structure AntibioticDetails where
  ID : String := ""
  ParentKey : String := ""
  Prescriber : String := ""
  Intraveno : String := ""
  OralSwitch : String := ""
  NumberMissed : String := ""
  MissedDose : String := ""
  Guideline : String := ""
  Treatment : String := ""
deriving DecidableEq, Repr

/-- Indication record, as populated by `parseIndicationRecord`. -/
structure Indication where
  ID : String := ""
  ParentKey : String := ""
  IndicationType : String := ""
  SurgProphDuration : String := ""
  SurgProphSite : String := ""
  Diagnosis : String := ""
  StartDateTreatment : RawDT := zeroTime
  ReasonInNotes : String := ""
  CultureSampleTaken : String := ""
deriving DecidableEq, Repr

/-- OptionalVar record, as populated by `parseOptionalVarRecord`. -/
structure OptionalVar where
  ID : String := ""
  ParentKey : String := ""
  PrescriberType : String := ""
  IntravenousType : String := ""
  OralSwitch : String := ""
  NumberMissedDoses : Int := 0
  MissedDosesReason : String := ""
  GuidelinesCompliance : String := ""
  TreatmentType : String := ""
deriving DecidableEq, Repr

/-- Specimen record, as populated by `parseSpecimenRecord`. -/
structure Specimen where
  ID : String := ""
  ParentKey : String := ""
  SpecimenType : String := ""
  CultureResult : String := ""
  Microorganism : String := ""
  AntibioticSusceptibilityTestResults : String := ""
  ResistantPhenotype : String := ""
deriving DecidableEq, Repr

/-! ### Record parsers

Every Go column access has the shape

    if len(record) > i && record[i] != "" { field = transform(record[i]) }

with the field otherwise left at its zero value.  `cellAt` embeds that guard;
the `strField` / `intField` / `floatField` / `dateField` / `keyField`
helpers apply the verbatim, `Atoi`, `ParseFloat`, `parseDate` and
key-normalizing transforms respectively (numeric parse failures silently
leave the zero value, as in the source). -/

/-- The guarded cell access `len(record) > i && record[i] != ""`. -/
def cellAt (r : List String) (i : Nat) : Option String :=
  if i < r.length ∧ r.getD i "" ≠ "" then some (r.getD i "") else none

/-- Verbatim string field. -/
def strField (r : List String) (i : Nat) : String := (cellAt r i).getD ""

/-- Integer field via `strconv.Atoi`; parse failure leaves 0. -/
def intField (r : List String) (i : Nat) : Int :=
  match cellAt r i with
  | some v => (goAtoi v).getD 0
  | none => 0

/-- Float field via `strconv.ParseFloat`; parse failure leaves 0. -/
def floatField (r : List String) (i : Nat) : Rat :=
  match cellAt r i with
  | some v => (goParseFloat v).getD 0
  | none => 0

/-- Date field via `parseDate`; the guard leaves the zero time for an absent
or empty cell. -/
def dateField (r : List String) (i : Nat) : RawDT :=
  match cellAt r i with
  | some v => parseDate v
  | none => zeroTime

/-- Key field normalized through the form-marker extraction. -/
def keyField (r : List String) (i : Nat) : String :=
  match cellAt r i with
  | some v => normalizeKey v
  | none => ""

/-- `parsePatientRecord` (report-returning variant): fixed positional layout,
identifier (and `InstanceID`) from column 45. -/
def parsePatientRecord (record : List String) : Patient :=
  { SubmissionDate := dateField record 0
    Region := strField record 1
    District := strField record 2
    Subcounty := strField record 3
    Facility := strField record 4
    LevelOfCare := strField record 5
    Ownership := strField record 6
    WardName := strField record 7
    WardTotalPatients := intField record 8
    WardEligiblePatients := intField record 9
    SurveyDate := dateField record 10
    PatientInitials := strField record 11
    Code := strField record 12
    RandNum := intField record 13
    PatientCode := strField record 14
    ShowCode := strField record 15
    IsThePatientAnInfant := strField record 16
    AgeMonths := intField record 17
    AgeYears := intField record 18
    PreTermBirth := strField record 19
    Gender := strField record 20
    Weight := floatField record 21
    WeightBirthKg := floatField record 22
    AdmissionDate := dateField record 23
    SurgerySinceAdmission := strField record 24
    UrinaryCatheter := strField record 25
    PeripheralVascularCatheter := strField record 26
    CentralVascularCatheter := strField record 27
    Intubation := strField record 28
    PatientOnAntibiotic := strField record 29
    PatientNumberAntibiotics := intField record 30
    MalariaStatus := strField record 31
    TuberculosisStatus := strField record 32
    HIVStatus := strField record 33
    HIVOnART := strField record 34
    HIVCD4Count := strField record 35
    HIVViralLoad := strField record 36
    Diabetes := strField record 37
    MalnutritionStatus := strField record 38
    Hypertension := strField record 39
    ReferredFrom := strField record 40
    Hospitalization90Days := strField record 41
    TypeSurgerySinceAdmission := strField record 42
    AdditionalComment := strField record 43
    Comments := strField record 44
    ID := strField record 45
    InstanceID := strField record 45
    SubmitterID := strField record 46
    SubmitterName := strField record 47
    AttachmentsPresent := strField record 48
    AttachmentsExpected := strField record 49
    Status := strField record 50
    ReviewState := strField record 51
    DeviceID := strField record 52
    Edits := strField record 53
    FormVersion := strField record 54 }

/-- `parseAntibioticRecord` (report-returning variant): identifier from the
KEY column (index 14) and parent key from PARENT_K (index 13), both through
the key normalizer; column 0 is unused by this variant. -/
def parseAntibioticRecord (record : List String) : Antibiotic :=
  { ID := keyField record 14
    ParentKey := keyField record 13
    AntibioticINNName := strField record 1
    OtherAntibiotic := strField record 2
    ATCCode := strField record 3
    AntibioticClass := strField record 4
    AntibioticAwareClassification := strField record 5
    AntibioticWrittenInINN := strField record 6
    StartDateAntibiotic := dateField record 7
    UnitDose := floatField record 8
    UnitDosesCombination := strField record 9
    UnitDoseMeasureUnit := strField record 10
    UnitDoseFrequency := strField record 11
    AdministrationRoute := strField record 12 }

/-- `parseAntibioticDetailsRecord`: both the identifier and the parent key
come from the single compound column 7 through the key normalizer. -/
def parseAntibioticDetailsRecord (record : List String) : AntibioticDetails :=
  { ID := keyField record 7
    ParentKey := keyField record 7
    Prescriber := strField record 0
    Intraveno := strField record 1
    OralSwitch := strField record 2
    NumberMissed := strField record 3
    MissedDose := strField record 4
    Guideline := strField record 5
    Treatment := strField record 6 }

/-- `parseIndicationRecord` (report-returning variant): parent key from
column 7 and identifier from column 8, both through the key normalizer. -/
def parseIndicationRecord (record : List String) : Indication :=
  { ID := keyField record 8
    ParentKey := keyField record 7
    IndicationType := strField record 0
    SurgProphDuration := strField record 1
    SurgProphSite := strField record 2
    Diagnosis := strField record 3
    StartDateTreatment := dateField record 4
    ReasonInNotes := strField record 5
    CultureSampleTaken := strField record 6 }

/-- `parseOptionalVarRecord` (report-returning variant): identifier verbatim
from column 0, parent key verbatim from column 8 (no normalization). -/
def parseOptionalVarRecord (record : List String) : OptionalVar :=
  { ID := strField record 0
    ParentKey := strField record 8
    PrescriberType := strField record 1
    IntravenousType := strField record 2
    OralSwitch := strField record 3
    NumberMissedDoses := intField record 4
    MissedDosesReason := strField record 5
    GuidelinesCompliance := strField record 6
    TreatmentType := strField record 7 }

/-- `parseSpecimenRecord` (report-returning variant): parent key from column
5 and identifier from column 6, both through the key normalizer. -/
def parseSpecimenRecord (record : List String) : Specimen :=
  { ID := keyField record 6
    ParentKey := keyField record 5
    SpecimenType := strField record 0
    CultureResult := strField record 1
    Microorganism := strField record 2
    AntibioticSusceptibilityTestResults := strField record 3
    ResistantPhenotype := strField record 4 }

/-! ### The storage collaborator

gorm is modelled as explicit state: the six collections, plus two key lists
describing opaque driver failures.  A `First`-by-key lookup yields `found`
when a record with the key is stored, `notFound` (gorm's ErrRecordNotFound)
when none is, and `dbError` (any other driver error) when the key is listed
in `lookupFailKeys`.  A `Create` call fails when the record's key is listed
in `createFailKeys`, and otherwise appends the record to its collection. -/

/-- Outcome of a gorm `First`-by-key lookup. -/
inductive LookupResult where
  | found
  | notFound
  | dbError
deriving DecidableEq, Repr

/-- Lookup against a key list with an opaque-failure list. -/
def lookupBy (keys fail : List String) (k : String) : LookupResult :=
  if k ∈ fail then .dbError else if k ∈ keys then .found else .notFound

/-- The database state. -/
structure DB where
  patients : List Patient := []
  antibiotics : List Antibiotic := []
  antibioticDetails : List AntibioticDetails := []
  indications : List Indication := []
  optionalVars : List OptionalVar := []
  specimens : List Specimen := []
  lookupFailKeys : List String := []
  createFailKeys : List String := []
deriving DecidableEq, Repr

/-- Keys of the stored patients. -/
def patientKeys (db : DB) : List String := db.patients.map (fun p => p.ID)

/-- The parent-Patient lookup used by every child-entity importer. -/
def patientLookup (db : DB) (k : String) : LookupResult :=
  lookupBy (patientKeys db) db.lookupFailKeys k

/-- Placeholder for the opaque driver error text printed through `%v`. -/
def dbErrText : String := "database error"

/-! ### The upload report and the error messages -/

/-- UploadResult: statistics about the upload process. -/
structure UploadResult where
  TotalRecords : Nat := 0
  ProcessedRecords : Nat := 0
  SkippedRecords : Nat := 0
  InsertedRecords : Nat := 0
  UpdatedRecords : Nat := 0
  Errors : List String := []
deriving DecidableEq, Repr

/-- The fresh report every import starts from. -/
def emptyResult : UploadResult := {}

/-- Message prefix `Row %d: `. -/
def rowMsg (rowNum : Nat) (rest : String) : String :=
  "Row " ++ Nat.repr rowNum ++ ": " ++ rest

/-- `Row %d: insufficient columns (expected at least %d, got %d)`. -/
def insufficientColsMsg (rowNum minCols got : Nat) : String :=
  rowMsg rowNum ("insufficient columns (expected at least " ++ Nat.repr minCols ++
    ", got " ++ Nat.repr got ++ ")")

/-- `Row %d: missing <entity> ID`. -/
def missingIdMsg (rowNum : Nat) (name : String) : String :=
  rowMsg rowNum ("missing " ++ name ++ " ID")

/-- `Row %d: database error checking <entity> %s: %v`. -/
def dbCheckMsg (rowNum : Nat) (name id : String) : String :=
  rowMsg rowNum ("database error checking " ++ name ++ " " ++ id ++ ": " ++ dbErrText)

/-- `Row %d: parent patient %s not found for <entity> %s` — produced for
every failing parent lookup, whatever its cause. -/
def parentMsg (rowNum : Nat) (name parentK id : String) : String :=
  rowMsg rowNum ("parent patient " ++ parentK ++ " not found for " ++ name ++ " " ++ id)

/-- `Row %d: error creating <entity> %s: %v`. -/
def createMsg (rowNum : Nat) (name id : String) : String :=
  rowMsg rowNum ("error creating " ++ name ++ " " ++ id ++ ": " ++ dbErrText)

/-- Append an error message to the report. -/
def addErr (res : UploadResult) (msg : String) : UploadResult :=
  { res with Errors := res.Errors ++ [msg] }

/-- Increment the skipped counter. -/
def skipR (res : UploadResult) : UploadResult :=
  { res with SkippedRecords := res.SkippedRecords + 1 }

/-! ### The import orchestrator (report-returning variant)

`ImportPatients`, `ImportAntibiotics`, `ImportIndications`,
`ImportOptionalVars` and `ImportSpecimens` are textual copies of one loop
differing only in the minimum column count, the record parser, the entity
collection, the presence of the parent-Patient check and the entity name in
the messages; they are embedded as instances of `runImport` over an
`ImportConfig`.  `ImportAntibioticDetails` has a genuinely different shape
(no counters, parent check before the duplicate check, nil error on a short
file) and is embedded separately.

The input is the outcome of `csv.ReadAll` on the uploaded stream: either a
structural CSV error (with its text) or the list of rows.  Alongside the
final state, each importer returns the operation-level error (`none` for Go
`nil`).  The state also carries `created`, the ordered list of keys passed
to `Create` calls that succeeded — the persistence trace. -/

/-- State threaded through the row loop. -/
structure ImportState where
  result : UploadResult := emptyResult
  db : DB := {}
  created : List String := []
deriving DecidableEq, Repr

/-- Per-entity parameters of the five counting importers. -/
structure ImportConfig (E : Type) where
  minCols : Nat
  parse : List String → E
  recId : E → String
  parentKey : E → String
  checkParent : Bool
  getColl : DB → List E
  setColl : DB → List E → DB
  entityName : String

/-- One data row of a counting importer, mirroring the loop body: processed
count, column-count guard, parse, missing-ID guard, duplicate check
(skip-if-exists), parent-Patient check (when configured), `Create`. -/
def rowStep {E : Type} (cfg : ImportConfig E) (rowNum : Nat) (record : List String)
    (st : ImportState) : ImportState :=
  let res1 := { st.result with ProcessedRecords := st.result.ProcessedRecords + 1 }
  if record.length < cfg.minCols then
    { st with result := skipR (addErr res1 (insufficientColsMsg rowNum cfg.minCols record.length)) }
  else
    let e := cfg.parse record
    if cfg.recId e = "" then
      { st with result := skipR (addErr res1 (missingIdMsg rowNum cfg.entityName)) }
    else
      let doCreate : ImportState :=
        if cfg.recId e ∈ st.db.createFailKeys then
          { st with result := skipR (addErr res1 (createMsg rowNum cfg.entityName (cfg.recId e))) }
        else
          { result := { res1 with InsertedRecords := res1.InsertedRecords + 1 }
            db := cfg.setColl st.db (cfg.getColl st.db ++ [e])
            created := st.created ++ [cfg.recId e] }
      match lookupBy ((cfg.getColl st.db).map cfg.recId) st.db.lookupFailKeys (cfg.recId e) with
      | .found => { st with result := skipR res1 }
      | .dbError =>
        { st with result :=
            (skipR (addErr res1 (dbCheckMsg rowNum cfg.entityName (cfg.recId e)))) }
      | .notFound =>
        if cfg.checkParent then
          if cfg.parentKey e ≠ "" then
            match patientLookup st.db (cfg.parentKey e) with
            | .found => doCreate
            | _ =>
              { st with result :=
                  (skipR
                    (addErr res1
                      (parentMsg rowNum cfg.entityName (cfg.parentKey e) (cfg.recId e)))) }
          else doCreate
        else doCreate

/-- The row loop of a counting importer (`rowNum` starts at 2: the header is
row 1). -/
def processRows {E : Type} (cfg : ImportConfig E) :
    List (List String) → Nat → ImportState → ImportState
  | [], _, st => st
  | r :: rest, rowNum, st => processRows cfg rest (rowNum + 1) (rowStep cfg rowNum r st)

/-- A counting importer: CSV read error and the fewer-than-two-rows check are
operation-fatal; otherwise the row loop runs and the error is nil. -/
def runImport {E : Type} (cfg : ImportConfig E)
    (input : Except String (List (List String))) (db : DB) :
    ImportState × Option String :=
  match input with
  | .error e => ({ result := emptyResult, db := db, created := [] },
      some ("error reading CSV file: " ++ e))
  | .ok records =>
    if records.length < 2 then
      ({ result := emptyResult, db := db, created := [] },
        some "CSV file must have at least a header row and one data row")
    else
      (processRows cfg (records.drop 1) 2
        { result := { emptyResult with TotalRecords := records.length - 1 }
          db := db, created := [] }, none)

/-- Configuration of `ImportPatients` (56 columns, no parent check). -/
def patientCfg : ImportConfig Patient :=
  { minCols := 56
    parse := parsePatientRecord
    recId := fun p => p.ID
    parentKey := fun _ => ""
    checkParent := false
    getColl := fun db => db.patients
    setColl := fun db l => { db with patients := l }
    entityName := "patient" }

/-- Configuration of `ImportAntibiotics` (15 columns, parent check). -/
def antibioticCfg : ImportConfig Antibiotic :=
  { minCols := 15
    parse := parseAntibioticRecord
    recId := fun a => a.ID
    parentKey := fun a => a.ParentKey
    checkParent := true
    getColl := fun db => db.antibiotics
    setColl := fun db l => { db with antibiotics := l }
    entityName := "antibiotic" }

/-- Configuration of `ImportIndications` (9 columns, parent check). -/
def indicationCfg : ImportConfig Indication :=
  { minCols := 9
    parse := parseIndicationRecord
    recId := fun x => x.ID
    parentKey := fun x => x.ParentKey
    checkParent := true
    getColl := fun db => db.indications
    setColl := fun db l => { db with indications := l }
    entityName := "indication" }

/-- Configuration of `ImportOptionalVars` (8 columns, parent check). -/
def optionalVarCfg : ImportConfig OptionalVar :=
  { minCols := 8
    parse := parseOptionalVarRecord
    recId := fun x => x.ID
    parentKey := fun x => x.ParentKey
    checkParent := true
    getColl := fun db => db.optionalVars
    setColl := fun db l => { db with optionalVars := l }
    entityName := "optional var" }

/-- Configuration of `ImportSpecimens` (7 columns, parent check). -/
def specimenCfg : ImportConfig Specimen :=
  { minCols := 7
    parse := parseSpecimenRecord
    recId := fun x => x.ID
    parentKey := fun x => x.ParentKey
    checkParent := true
    getColl := fun db => db.specimens
    setColl := fun db l => { db with specimens := l }
    entityName := "specimen" }

/-- `ImportPatients` (report-returning variant). -/
def ImportPatients (input : Except String (List (List String))) (db : DB) :
    ImportState × Option String := runImport patientCfg input db

/-- `ImportAntibiotics` (report-returning variant). -/
def ImportAntibiotics (input : Except String (List (List String))) (db : DB) :
    ImportState × Option String := runImport antibioticCfg input db

/-- `ImportIndications` (report-returning variant). -/
def ImportIndications (input : Except String (List (List String))) (db : DB) :
    ImportState × Option String := runImport indicationCfg input db

/-- `ImportOptionalVars` (report-returning variant). -/
def ImportOptionalVars (input : Except String (List (List String))) (db : DB) :
    ImportState × Option String := runImport optionalVarCfg input db

/-- `ImportSpecimens` (report-returning variant). -/
def ImportSpecimens (input : Except String (List (List String))) (db : DB) :
    ImportState × Option String := runImport specimenCfg input db

/-- One data row of `ImportAntibioticDetails`: only error strings are
recorded (no counters are ever touched); the parent check precedes the
duplicate check, and the duplicate check skips only on `found` (a lookup
error falls through to `Create`, as in the source, which tests only
`err == nil`). -/
def detailsRowStep (rowNum : Nat) (record : List String) (st : ImportState) : ImportState :=
  if record.length < 8 then
    { st with result := addErr st.result (insufficientColsMsg rowNum 8 record.length) }
  else
    let e := parseAntibioticDetailsRecord record
    if e.ID = "" then
      { st with result := addErr st.result (rowMsg rowNum "missing antibiotic details ID") }
    else
      if e.ParentKey ≠ "" ∧ patientLookup st.db e.ParentKey ≠ .found then
        { st with result :=
            (addErr st.result (parentMsg rowNum "antibiotic details" e.ParentKey e.ID)) }
      else
        match lookupBy (st.db.antibioticDetails.map (fun d => d.ID))
            st.db.lookupFailKeys e.ID with
        | .found => st
        | _ =>
          if e.ID ∈ st.db.createFailKeys then
            { st with result :=
                (addErr st.result
                  (rowMsg rowNum ("failed to create antibiotic details record: " ++ dbErrText))) }
          else
            { result := st.result
              db := { st.db with antibioticDetails := st.db.antibioticDetails ++ [e] }
              created := st.created ++ [e.ID] }

/-- The row loop of `ImportAntibioticDetails`. -/
def processDetailsRows : List (List String) → Nat → ImportState → ImportState
  | [], _, st => st
  | r :: rest, rowNum, st => processDetailsRows rest (rowNum + 1) (detailsRowStep rowNum r st)

/-- `ImportAntibioticDetails`: a CSV read error is returned as the operation
error (after being recorded in the report); a fewer-than-two-rows file is
recorded in the report but the returned error is nil; `TotalRecords`,
`ProcessedRecords`, `SkippedRecords`, `InsertedRecords` are never set. -/
def ImportAntibioticDetails (input : Except String (List (List String))) (db : DB) :
    ImportState × Option String :=
  match input with
  | .error e =>
    ({ result := { emptyResult with Errors := ["Failed to read CSV file: " ++ e] }
       db := db, created := [] }, some e)
  | .ok records =>
    if records.length < 2 then
      ({ result := { emptyResult with
           Errors := ["CSV file must contain at least a header row and one data row"] }
         db := db, created := [] }, none)
    else
      (processDetailsRows (records.drop 1) 2
        { result := emptyResult, db := db, created := [] }, none)

/-! ## Theorems -/

/-! ### Guarded column access (claim C10) -/

/-- `getD` into a replicated default is the default, looked up or not. -/
theorem getD_replicate_self (a : String) (k i : Nat) :
    (List.replicate k a).getD i a = a := by
  rcases Nat.lt_or_ge i k with h | h
  · rw [List.getD_eq_getElem _ _ (by simpa using h)]
    simp
  · exact List.getD_eq_default _ _ (by simpa using h)

/-- Padding a row with empty cells does not change any guarded cell access:
an out-of-range column and an empty cell take the same branch. -/
theorem cellAt_append_replicate (r : List String) (k i : Nat) :
    cellAt (r ++ List.replicate k "") i = cellAt r i := by
  unfold cellAt
  by_cases h : i < r.length
  · have h2 : i < (r ++ List.replicate k "").length := by
      simp only [List.length_append, List.length_replicate]; omega
    rw [List.getD_append _ _ _ _ h]
    by_cases hv : r.getD i "" = ""
    · have h1 : ¬(i < (r ++ List.replicate k "").length ∧ r.getD i "" ≠ "") :=
        fun hc => hc.2 hv
      have h3 : ¬(i < r.length ∧ r.getD i "" ≠ "") := fun hc => hc.2 hv
      rw [if_neg h1, if_neg h3]
    · rw [if_pos ⟨h2, hv⟩, if_pos ⟨h, hv⟩]
  · push_neg at h
    have hg1 : r.getD i "" = "" := List.getD_eq_default _ _ h
    have hg2 : (r ++ List.replicate k "").getD i "" = "" := by
      rw [List.getD_append_right _ _ _ _ h]
      exact getD_replicate_self _ _ _
    rw [hg1, hg2]
    simp

theorem strField_append_replicate (r : List String) (k i : Nat) :
    strField (r ++ List.replicate k "") i = strField r i := by
  unfold strField; rw [cellAt_append_replicate]

theorem intField_append_replicate (r : List String) (k i : Nat) :
    intField (r ++ List.replicate k "") i = intField r i := by
  unfold intField; rw [cellAt_append_replicate]

theorem floatField_append_replicate (r : List String) (k i : Nat) :
    floatField (r ++ List.replicate k "") i = floatField r i := by
  unfold floatField; rw [cellAt_append_replicate]

theorem dateField_append_replicate (r : List String) (k i : Nat) :
    dateField (r ++ List.replicate k "") i = dateField r i := by
  unfold dateField; rw [cellAt_append_replicate]

theorem keyField_append_replicate (r : List String) (k i : Nat) :
    keyField (r ++ List.replicate k "") i = keyField r i := by
  unfold keyField; rw [cellAt_append_replicate]

/-- C10: every record parser is total on a cell list of any length — also
below the orchestrator's minimum column count.  Every column access goes
through the guard `cellAt`, so a cell list behaves exactly like the same
list padded with further (empty) cells: absent columns contribute their
fields' zero values, and the empty row yields the all-zero record for each
of the six entities.  (Totality itself is by construction: each parser is a
structure literal of guarded accesses.) -/
theorem C10_parsers_total_guarded :
    (∀ r k, parsePatientRecord (r ++ List.replicate k "") = parsePatientRecord r) ∧
    (∀ r k, parseAntibioticRecord (r ++ List.replicate k "") = parseAntibioticRecord r) ∧
    (∀ r k, parseAntibioticDetailsRecord (r ++ List.replicate k "") =
      parseAntibioticDetailsRecord r) ∧
    (∀ r k, parseIndicationRecord (r ++ List.replicate k "") = parseIndicationRecord r) ∧
    (∀ r k, parseOptionalVarRecord (r ++ List.replicate k "") = parseOptionalVarRecord r) ∧
    (∀ r k, parseSpecimenRecord (r ++ List.replicate k "") = parseSpecimenRecord r) ∧
    parsePatientRecord [] = {} ∧
    parseAntibioticRecord [] = {} ∧
    parseAntibioticDetailsRecord [] = {} ∧
    parseIndicationRecord [] = {} ∧
    parseOptionalVarRecord [] = {} ∧
    parseSpecimenRecord [] = {} := by
  refine ⟨?_, ?_, ?_, ?_, ?_, ?_, ?_, ?_, ?_, ?_, ?_, ?_⟩
  · intro r k
    unfold parsePatientRecord
    simp only [strField_append_replicate, intField_append_replicate,
      floatField_append_replicate, dateField_append_replicate]
  · intro r k
    unfold parseAntibioticRecord
    simp only [strField_append_replicate, floatField_append_replicate,
      dateField_append_replicate, keyField_append_replicate]
  · intro r k
    unfold parseAntibioticDetailsRecord
    simp only [strField_append_replicate, keyField_append_replicate]
  · intro r k
    unfold parseIndicationRecord
    simp only [strField_append_replicate, dateField_append_replicate,
      keyField_append_replicate]
  · intro r k
    unfold parseOptionalVarRecord
    simp only [strField_append_replicate, intField_append_replicate]
  · intro r k
    unfold parseSpecimenRecord
    simp only [strField_append_replicate, keyField_append_replicate]
  · rfl
  · rfl
  · rfl
  · rfl
  · rfl
  · rfl

/-! ### Key normalization (claim C5) -/

/-- A pattern is a prefix of itself followed by anything. -/
theorem startsWithL_append_self (p t : List Char) : startsWithL p (p ++ t) = true := by
  induction p with
  | nil => rfl
  | cons c cs ih => simpa [startsWithL] using ih

/-- If the pattern starts the input, its first occurrence is at 0. -/
theorem indexOfL_of_startsWith (pat s : List Char) (h : startsWithL pat s = true) :
    indexOfL pat s = some 0 := by
  cases s with
  | nil =>
    cases pat with
    | nil => rfl
    | cons p ps => simp [startsWithL] at h
  | cons c rest => simp [indexOfL, h]

/-- When no occurrence of the (non-empty) pattern starts inside `A`, the
first occurrence of the pattern in `A ++ pat ++ B` is at position `|A|`. -/
theorem indexOfL_first (pat A B : List Char)
    (hA : ∀ i, i < A.length → startsWithL pat (List.drop i (A ++ (pat ++ B))) = false) :
    indexOfL pat (A ++ (pat ++ B)) = some A.length := by
  induction A with
  | nil =>
    simpa using indexOfL_of_startsWith pat (pat ++ B) (startsWithL_append_self pat B)
  | cons a A' ih =>
    have h0 : startsWithL pat (a :: (A' ++ (pat ++ B))) = false := by
      have := hA 0 (by simp)
      simpa using this
    have ih' : indexOfL pat (A' ++ (pat ++ B)) = some A'.length := by
      apply ih
      intro i hi
      have := hA (i + 1) (by simp; omega)
      simpa using this
    simp [indexOfL, h0, ih']

/-- C5 (amended): key normalization returns the prefix of the input before
the first occurrence of the form marker.  Consequently it returns exactly
`A` on `A ++ marker ++ B` whenever no occurrence of the marker starts inside
`A` (the original claim's unrestricted `A` fails: the source splits at the
first occurrence); a key without the marker is returned unchanged; the empty
key yields the empty key. -/
theorem C5_normalizeKey_firstOccurrence :
    (∀ A B : List Char,
      (∀ i, i < A.length →
        startsWithL formMarker.data (List.drop i (A ++ (formMarker.data ++ B))) = false) →
      normalizeKey (String.mk (A ++ (formMarker.data ++ B))) = String.mk A) ∧
    (∀ s : String, containsL formMarker.data s.data = false → normalizeKey s = s) ∧
    normalizeKey "" = "" := by
  refine ⟨?_, ?_, by decide⟩
  · intro A B hA
    have hidx : indexOfL formMarker.data (A ++ (formMarker.data ++ B)) = some A.length :=
      indexOfL_first formMarker.data A B hA
    have hcont : containsL formMarker.data (String.mk (A ++ (formMarker.data ++ B))).data = true := by
      simp [containsL, hidx]
    unfold normalizeKey
    rw [if_pos hcont]
    have : (String.mk (A ++ (formMarker.data ++ B))).data = A ++ (formMarker.data ++ B) := rfl
    rw [this, hidx]
    simp [List.take_left']
  · intro s h
    unfold normalizeKey
    rw [if_neg (by simp [h])]

/-- C5 (counterexample): with `A := "x/Antibioticform/y"` and `B := "z"`,
the input `A ++ marker ++ B` normalizes to `"x"` (the prefix before the
first marker occurrence), not to `A` as the claim states. -/
theorem C5_counterexample :
    normalizeKey ("x/Antibioticform/y" ++ "/Antibioticform/" ++ "z") = "x" ∧
    "x" ≠ "x/Antibioticform/y" := by
  constructor
  · decide
  · decide

/-- Witness for `C5_normalizeKey_firstOccurrence` at a concrete input. -/
theorem C5_witness :
    normalizeKey (String.mk ("abc123".data ++ (formMarker.data ++ "Core".data))) =
      String.mk "abc123".data :=
  C5_normalizeKey_firstOccurrence.1 "abc123".data "Core".data (by decide)

/-! ### Branch characterizations of the row loop bodies

One lemma per branch of `rowStep` (the shared loop body of the five
counting importers) and of `detailsRowStep`, stated with the updated report fields
spelled out.  All claim theorems about per-row behaviour reduce to these. -/

section RowStepBranches

variable {E : Type} (cfg : ImportConfig E) (rowNum : Nat) (r : List String) (st : ImportState)

/-- Short row: error recorded, skipped and processed bumped, nothing else. -/
theorem rowStep_shortRow (hlen : r.length < cfg.minCols) :
    rowStep cfg rowNum r st =
      { st with result :=
          { st.result with
            ProcessedRecords := st.result.ProcessedRecords + 1
            SkippedRecords := st.result.SkippedRecords + 1
            Errors := st.result.Errors ++ [insufficientColsMsg rowNum cfg.minCols r.length] } } := by
  simp only [rowStep]
  rw [if_pos hlen]
  rfl

/-- Empty parsed identifier: error recorded, skipped and processed bumped. -/
theorem rowStep_missingId (hlen : ¬r.length < cfg.minCols)
    (hid : cfg.recId (cfg.parse r) = "") :
    rowStep cfg rowNum r st =
      { st with result :=
          { st.result with
            ProcessedRecords := st.result.ProcessedRecords + 1
            SkippedRecords := st.result.SkippedRecords + 1
            Errors := st.result.Errors ++ [missingIdMsg rowNum cfg.entityName] } } := by
  simp only [rowStep]
  rw [if_neg hlen, if_pos hid]
  rfl

/-- Duplicate found: silent skip (no error message, no write). -/
theorem rowStep_existsFound (hlen : ¬r.length < cfg.minCols)
    (hid : cfg.recId (cfg.parse r) ≠ "")
    (hlk : lookupBy ((cfg.getColl st.db).map cfg.recId) st.db.lookupFailKeys
      (cfg.recId (cfg.parse r)) = .found) :
    rowStep cfg rowNum r st =
      { st with result :=
          { st.result with
            ProcessedRecords := st.result.ProcessedRecords + 1
            SkippedRecords := st.result.SkippedRecords + 1 } } := by
  simp only [rowStep]
  rw [if_neg hlen, if_neg hid, hlk]
  rfl

/-- Duplicate check hits a driver error: error recorded, row skipped. -/
theorem rowStep_existsDbError (hlen : ¬r.length < cfg.minCols)
    (hid : cfg.recId (cfg.parse r) ≠ "")
    (hlk : lookupBy ((cfg.getColl st.db).map cfg.recId) st.db.lookupFailKeys
      (cfg.recId (cfg.parse r)) = .dbError) :
    rowStep cfg rowNum r st =
      { st with result :=
          { st.result with
            ProcessedRecords := st.result.ProcessedRecords + 1
            SkippedRecords := st.result.SkippedRecords + 1
            Errors := st.result.Errors ++
              [dbCheckMsg rowNum cfg.entityName (cfg.recId (cfg.parse r))] } } := by
  simp only [rowStep]
  rw [if_neg hlen, if_neg hid, hlk]
  rfl

/-- Failing parent lookup (for any reason other than `found`): error
recorded, row skipped, no write. -/
theorem rowStep_parentMissing (hlen : ¬r.length < cfg.minCols)
    (hid : cfg.recId (cfg.parse r) ≠ "")
    (hlk : lookupBy ((cfg.getColl st.db).map cfg.recId) st.db.lookupFailKeys
      (cfg.recId (cfg.parse r)) = .notFound)
    (hcp : cfg.checkParent = true)
    (hpk : cfg.parentKey (cfg.parse r) ≠ "")
    (hpl : patientLookup st.db (cfg.parentKey (cfg.parse r)) ≠ .found) :
    rowStep cfg rowNum r st =
      { st with result :=
          { st.result with
            ProcessedRecords := st.result.ProcessedRecords + 1
            SkippedRecords := st.result.SkippedRecords + 1
            Errors := st.result.Errors ++
              [parentMsg rowNum cfg.entityName (cfg.parentKey (cfg.parse r))
                (cfg.recId (cfg.parse r))] } } := by
  simp only [rowStep]
  rw [if_neg hlen, if_neg hid, hlk]
  rw [if_pos hcp, if_pos hpk]
  cases hplc : patientLookup st.db (cfg.parentKey (cfg.parse r)) with
  | found => exact absurd hplc hpl
  | notFound => rfl
  | dbError => rfl

/-- Successful `Create`: inserted bumped, record appended, key traced. -/
theorem rowStep_createOk (hlen : ¬r.length < cfg.minCols)
    (hid : cfg.recId (cfg.parse r) ≠ "")
    (hlk : lookupBy ((cfg.getColl st.db).map cfg.recId) st.db.lookupFailKeys
      (cfg.recId (cfg.parse r)) = .notFound)
    (hpar : cfg.checkParent = false ∨ cfg.parentKey (cfg.parse r) = "" ∨
      patientLookup st.db (cfg.parentKey (cfg.parse r)) = .found)
    (hcf : cfg.recId (cfg.parse r) ∉ st.db.createFailKeys) :
    rowStep cfg rowNum r st =
      { result :=
          { st.result with
            ProcessedRecords := st.result.ProcessedRecords + 1
            InsertedRecords := st.result.InsertedRecords + 1 }
        db := cfg.setColl st.db (cfg.getColl st.db ++ [cfg.parse r])
        created := st.created ++ [cfg.recId (cfg.parse r)] } := by
  simp only [rowStep]
  rw [if_neg hlen, if_neg hid, hlk, if_neg hcf]
  rcases hpar with hcp | hpk | hpl
  · rw [if_neg (by rw [hcp]; exact Bool.false_ne_true)]
  · by_cases hcp : cfg.checkParent
    · rw [if_pos hcp, if_neg (by simpa using hpk)]
    · rw [if_neg hcp]
  · by_cases hcp : cfg.checkParent
    · rw [if_pos hcp]
      by_cases hpk : cfg.parentKey (cfg.parse r) ≠ ""
      · rw [if_pos hpk, hpl]
      · rw [if_neg hpk]
    · rw [if_neg hcp]

/-- Failing `Create`: error recorded, row skipped, no write. -/
theorem rowStep_createFail (hlen : ¬r.length < cfg.minCols)
    (hid : cfg.recId (cfg.parse r) ≠ "")
    (hlk : lookupBy ((cfg.getColl st.db).map cfg.recId) st.db.lookupFailKeys
      (cfg.recId (cfg.parse r)) = .notFound)
    (hpar : cfg.checkParent = false ∨ cfg.parentKey (cfg.parse r) = "" ∨
      patientLookup st.db (cfg.parentKey (cfg.parse r)) = .found)
    (hcf : cfg.recId (cfg.parse r) ∈ st.db.createFailKeys) :
    rowStep cfg rowNum r st =
      { st with result :=
          { st.result with
            ProcessedRecords := st.result.ProcessedRecords + 1
            SkippedRecords := st.result.SkippedRecords + 1
            Errors := st.result.Errors ++
              [createMsg rowNum cfg.entityName (cfg.recId (cfg.parse r))] } } := by
  simp only [rowStep]
  rw [if_neg hlen, if_neg hid, hlk, if_pos hcf]
  rcases hpar with hcp | hpk | hpl
  · rw [if_neg (by rw [hcp]; exact Bool.false_ne_true)]
    rfl
  · by_cases hcp : cfg.checkParent
    · rw [if_pos hcp, if_neg (by simpa using hpk)]
      rfl
    · rw [if_neg hcp]
      rfl
  · by_cases hcp : cfg.checkParent
    · rw [if_pos hcp]
      by_cases hpk : cfg.parentKey (cfg.parse r) ≠ ""
      · rw [if_pos hpk, hpl]
        rfl
      · rw [if_neg hpk]
        rfl
    · rw [if_neg hcp]
      rfl

end RowStepBranches

section DetailsBranches

variable (rowNum : Nat) (r : List String) (st : ImportState)

/-- Details, short row: error recorded only — no counter moves. -/
theorem detailsRowStep_shortRow (hlen : r.length < 8) :
    detailsRowStep rowNum r st =
      { st with result :=
          { st.result with
            Errors := st.result.Errors ++ [insufficientColsMsg rowNum 8 r.length] } } := by
  simp only [detailsRowStep]
  rw [if_pos hlen]
  rfl

/-- Details, empty identifier: error recorded only. -/
theorem detailsRowStep_missingId (hlen : ¬r.length < 8)
    (hid : (parseAntibioticDetailsRecord r).ID = "") :
    detailsRowStep rowNum r st =
      { st with result :=
          { st.result with
            Errors := st.result.Errors ++ [rowMsg rowNum "missing antibiotic details ID"] } } := by
  simp only [detailsRowStep]
  rw [if_neg hlen, if_pos hid]
  rfl

/-- Details, failing parent lookup: error recorded only (the parent check
precedes the duplicate check here). -/
theorem detailsRowStep_parentMissing (hlen : ¬r.length < 8)
    (hid : (parseAntibioticDetailsRecord r).ID ≠ "")
    (hpm : (parseAntibioticDetailsRecord r).ParentKey ≠ "" ∧
      patientLookup st.db (parseAntibioticDetailsRecord r).ParentKey ≠ .found) :
    detailsRowStep rowNum r st =
      { st with result :=
          { st.result with
            Errors := st.result.Errors ++
              [parentMsg rowNum "antibiotic details" (parseAntibioticDetailsRecord r).ParentKey
                (parseAntibioticDetailsRecord r).ID] } } := by
  simp only [detailsRowStep]
  rw [if_neg hlen, if_neg hid, if_pos hpm]
  rfl

/-- Details, duplicate found: the row is silently dropped. -/
theorem detailsRowStep_existsFound (hlen : ¬r.length < 8)
    (hid : (parseAntibioticDetailsRecord r).ID ≠ "")
    (hpm : ¬((parseAntibioticDetailsRecord r).ParentKey ≠ "" ∧
      patientLookup st.db (parseAntibioticDetailsRecord r).ParentKey ≠ .found))
    (hlk : lookupBy (st.db.antibioticDetails.map (fun d => d.ID)) st.db.lookupFailKeys
      (parseAntibioticDetailsRecord r).ID = .found) :
    detailsRowStep rowNum r st = st := by
  simp only [detailsRowStep]
  rw [if_neg hlen, if_neg hid, if_neg hpm, hlk]

/-- Details, failing `Create`: error recorded only. -/
theorem detailsRowStep_createFailLemma (hlen : ¬r.length < 8)
    (hid : (parseAntibioticDetailsRecord r).ID ≠ "")
    (hpm : ¬((parseAntibioticDetailsRecord r).ParentKey ≠ "" ∧
      patientLookup st.db (parseAntibioticDetailsRecord r).ParentKey ≠ .found))
    (hlk : lookupBy (st.db.antibioticDetails.map (fun d => d.ID)) st.db.lookupFailKeys
      (parseAntibioticDetailsRecord r).ID ≠ .found)
    (hcf : (parseAntibioticDetailsRecord r).ID ∈ st.db.createFailKeys) :
    detailsRowStep rowNum r st =
      { st with result :=
          { st.result with
            Errors := st.result.Errors ++
              [rowMsg rowNum ("failed to create antibiotic details record: " ++ dbErrText)] } } := by
  simp only [detailsRowStep]
  rw [if_neg hlen, if_neg hid, if_neg hpm]
  cases hlkc : lookupBy (st.db.antibioticDetails.map (fun d => d.ID)) st.db.lookupFailKeys
      (parseAntibioticDetailsRecord r).ID with
  | found => exact absurd hlkc hlk
  | notFound => rw [if_pos hcf]; rfl
  | dbError => rw [if_pos hcf]; rfl

/-- Details, successful `Create` (reached on `notFound` and also on a lookup
error, since the source skips only on `err == nil`). -/
theorem detailsRowStep_createOk (hlen : ¬r.length < 8)
    (hid : (parseAntibioticDetailsRecord r).ID ≠ "")
    (hpm : ¬((parseAntibioticDetailsRecord r).ParentKey ≠ "" ∧
      patientLookup st.db (parseAntibioticDetailsRecord r).ParentKey ≠ .found))
    (hlk : lookupBy (st.db.antibioticDetails.map (fun d => d.ID)) st.db.lookupFailKeys
      (parseAntibioticDetailsRecord r).ID ≠ .found)
    (hcf : (parseAntibioticDetailsRecord r).ID ∉ st.db.createFailKeys) :
    detailsRowStep rowNum r st =
      { result := st.result
        db := { st.db with antibioticDetails :=
          st.db.antibioticDetails ++ [parseAntibioticDetailsRecord r] }
        created := st.created ++ [(parseAntibioticDetailsRecord r).ID] } := by
  simp only [detailsRowStep]
  rw [if_neg hlen, if_neg hid, if_neg hpm]
  cases hlkc : lookupBy (st.db.antibioticDetails.map (fun d => d.ID)) st.db.lookupFailKeys
      (parseAntibioticDetailsRecord r).ID with
  | found => exact absurd hlkc hlk
  | notFound => rw [if_neg hcf]
  | dbError => rw [if_neg hcf]

end DetailsBranches

/-- Complement of the parent-missing condition, split into the three cases
that reach the `Create` call. -/
theorem parent_ok_of_not_missing {E : Type} (cfg : ImportConfig E) (r : List String)
    (st : ImportState)
    (h : ¬(cfg.checkParent = true ∧ cfg.parentKey (cfg.parse r) ≠ "" ∧
      patientLookup st.db (cfg.parentKey (cfg.parse r)) ≠ .found)) :
    cfg.checkParent = false ∨ cfg.parentKey (cfg.parse r) = "" ∨
      patientLookup st.db (cfg.parentKey (cfg.parse r)) = .found := by
  by_cases h1 : cfg.checkParent
  · by_cases h2 : cfg.parentKey (cfg.parse r) = ""
    · exact Or.inr (Or.inl h2)
    · by_cases h3 : patientLookup st.db (cfg.parentKey (cfg.parse r)) = .found
      · exact Or.inr (Or.inr h3)
      · exact absurd ⟨h1, h2, h3⟩ h
  · exact Or.inl (Bool.not_eq_true _ ▸ Bool.of_not_eq_true h1)

/-- Exhaustive case analysis over the seven branches of `rowStep`: to prove
a property of the post-state it suffices to prove it for each branch's
explicit outcome under that branch's conditions. -/
theorem rowStep_cases {E : Type} {motive : ImportState → Prop} (cfg : ImportConfig E)
    (rowNum : Nat) (r : List String) (st : ImportState)
    (hshort : r.length < cfg.minCols →
      motive { st with result :=
        { st.result with
          ProcessedRecords := st.result.ProcessedRecords + 1
          SkippedRecords := st.result.SkippedRecords + 1
          Errors := st.result.Errors ++ [insufficientColsMsg rowNum cfg.minCols r.length] } })
    (hmiss : ¬r.length < cfg.minCols → cfg.recId (cfg.parse r) = "" →
      motive { st with result :=
        { st.result with
          ProcessedRecords := st.result.ProcessedRecords + 1
          SkippedRecords := st.result.SkippedRecords + 1
          Errors := st.result.Errors ++ [missingIdMsg rowNum cfg.entityName] } })
    (hfound : ¬r.length < cfg.minCols → cfg.recId (cfg.parse r) ≠ "" →
      lookupBy ((cfg.getColl st.db).map cfg.recId) st.db.lookupFailKeys
        (cfg.recId (cfg.parse r)) = .found →
      motive { st with result :=
        { st.result with
          ProcessedRecords := st.result.ProcessedRecords + 1
          SkippedRecords := st.result.SkippedRecords + 1 } })
    (hdberr : ¬r.length < cfg.minCols → cfg.recId (cfg.parse r) ≠ "" →
      lookupBy ((cfg.getColl st.db).map cfg.recId) st.db.lookupFailKeys
        (cfg.recId (cfg.parse r)) = .dbError →
      motive { st with result :=
        { st.result with
          ProcessedRecords := st.result.ProcessedRecords + 1
          SkippedRecords := st.result.SkippedRecords + 1
          Errors := st.result.Errors ++
            [dbCheckMsg rowNum cfg.entityName (cfg.recId (cfg.parse r))] } })
    (hparent : ¬r.length < cfg.minCols → cfg.recId (cfg.parse r) ≠ "" →
      lookupBy ((cfg.getColl st.db).map cfg.recId) st.db.lookupFailKeys
        (cfg.recId (cfg.parse r)) = .notFound →
      cfg.checkParent = true → cfg.parentKey (cfg.parse r) ≠ "" →
      patientLookup st.db (cfg.parentKey (cfg.parse r)) ≠ .found →
      motive { st with result :=
        { st.result with
          ProcessedRecords := st.result.ProcessedRecords + 1
          SkippedRecords := st.result.SkippedRecords + 1
          Errors := st.result.Errors ++
            [parentMsg rowNum cfg.entityName (cfg.parentKey (cfg.parse r))
              (cfg.recId (cfg.parse r))] } })
    (hcfail : ¬r.length < cfg.minCols → cfg.recId (cfg.parse r) ≠ "" →
      lookupBy ((cfg.getColl st.db).map cfg.recId) st.db.lookupFailKeys
        (cfg.recId (cfg.parse r)) = .notFound →
      (cfg.checkParent = false ∨ cfg.parentKey (cfg.parse r) = "" ∨
        patientLookup st.db (cfg.parentKey (cfg.parse r)) = .found) →
      cfg.recId (cfg.parse r) ∈ st.db.createFailKeys →
      motive { st with result :=
        { st.result with
          ProcessedRecords := st.result.ProcessedRecords + 1
          SkippedRecords := st.result.SkippedRecords + 1
          Errors := st.result.Errors ++
            [createMsg rowNum cfg.entityName (cfg.recId (cfg.parse r))] } })
    (hcok : ¬r.length < cfg.minCols → cfg.recId (cfg.parse r) ≠ "" →
      lookupBy ((cfg.getColl st.db).map cfg.recId) st.db.lookupFailKeys
        (cfg.recId (cfg.parse r)) = .notFound →
      (cfg.checkParent = false ∨ cfg.parentKey (cfg.parse r) = "" ∨
        patientLookup st.db (cfg.parentKey (cfg.parse r)) = .found) →
      cfg.recId (cfg.parse r) ∉ st.db.createFailKeys →
      motive
        { result :=
            ({ st.result with
                ProcessedRecords := st.result.ProcessedRecords + 1,
                InsertedRecords := st.result.InsertedRecords + 1 }),
          db := cfg.setColl st.db (cfg.getColl st.db ++ [cfg.parse r]),
          created := st.created ++ [cfg.recId (cfg.parse r)] }) :
    motive (rowStep cfg rowNum r st) := by
  by_cases hlen : r.length < cfg.minCols
  · rw [rowStep_shortRow cfg rowNum r st hlen]
    exact hshort hlen
  by_cases hid : cfg.recId (cfg.parse r) = ""
  · rw [rowStep_missingId cfg rowNum r st hlen hid]
    exact hmiss hlen hid
  cases hlk : lookupBy ((cfg.getColl st.db).map cfg.recId) st.db.lookupFailKeys
      (cfg.recId (cfg.parse r)) with
  | found =>
    rw [rowStep_existsFound cfg rowNum r st hlen hid hlk]
    exact hfound hlen hid hlk
  | dbError =>
    rw [rowStep_existsDbError cfg rowNum r st hlen hid hlk]
    exact hdberr hlen hid hlk
  | notFound =>
    by_cases hpm : cfg.checkParent = true ∧ cfg.parentKey (cfg.parse r) ≠ "" ∧
        patientLookup st.db (cfg.parentKey (cfg.parse r)) ≠ .found
    · rw [rowStep_parentMissing cfg rowNum r st hlen hid hlk hpm.1 hpm.2.1 hpm.2.2]
      exact hparent hlen hid hlk hpm.1 hpm.2.1 hpm.2.2
    · have hpar := parent_ok_of_not_missing cfg r st hpm
      by_cases hcf : cfg.recId (cfg.parse r) ∈ st.db.createFailKeys
      · rw [rowStep_createFail cfg rowNum r st hlen hid hlk hpar hcf]
        exact hcfail hlen hid hlk hpar hcf
      · rw [rowStep_createOk cfg rowNum r st hlen hid hlk hpar hcf]
        exact hcok hlen hid hlk hpar hcf

/-- Exhaustive case analysis over the five branches of `detailsRowStep`. -/
theorem detailsRowStep_cases {motive : ImportState → Prop}
    (rowNum : Nat) (r : List String) (st : ImportState)
    (hshort : r.length < 8 →
      motive { st with result :=
        { st.result with
          Errors := st.result.Errors ++ [insufficientColsMsg rowNum 8 r.length] } })
    (hmiss : ¬r.length < 8 → (parseAntibioticDetailsRecord r).ID = "" →
      motive { st with result :=
        { st.result with
          Errors := st.result.Errors ++ [rowMsg rowNum "missing antibiotic details ID"] } })
    (hparent : ¬r.length < 8 → (parseAntibioticDetailsRecord r).ID ≠ "" →
      (parseAntibioticDetailsRecord r).ParentKey ≠ "" →
      patientLookup st.db (parseAntibioticDetailsRecord r).ParentKey ≠ .found →
      motive { st with result :=
        { st.result with
          Errors := st.result.Errors ++
            [parentMsg rowNum "antibiotic details" (parseAntibioticDetailsRecord r).ParentKey
              (parseAntibioticDetailsRecord r).ID] } })
    (hfound : ¬r.length < 8 → (parseAntibioticDetailsRecord r).ID ≠ "" →
      lookupBy (st.db.antibioticDetails.map (fun d => d.ID)) st.db.lookupFailKeys
        (parseAntibioticDetailsRecord r).ID = .found →
      motive st)
    (hcfail : ¬r.length < 8 → (parseAntibioticDetailsRecord r).ID ≠ "" →
      lookupBy (st.db.antibioticDetails.map (fun d => d.ID)) st.db.lookupFailKeys
        (parseAntibioticDetailsRecord r).ID ≠ .found →
      (parseAntibioticDetailsRecord r).ID ∈ st.db.createFailKeys →
      motive { st with result :=
        { st.result with
          Errors := st.result.Errors ++
            [rowMsg rowNum ("failed to create antibiotic details record: " ++ dbErrText)] } })
    (hcok : ¬r.length < 8 → (parseAntibioticDetailsRecord r).ID ≠ "" →
      lookupBy (st.db.antibioticDetails.map (fun d => d.ID)) st.db.lookupFailKeys
        (parseAntibioticDetailsRecord r).ID ≠ .found →
      (parseAntibioticDetailsRecord r).ID ∉ st.db.createFailKeys →
      motive
        { result := st.result,
          db :=
            ({ st.db with antibioticDetails :=
                st.db.antibioticDetails ++ [parseAntibioticDetailsRecord r] }),
          created := st.created ++ [(parseAntibioticDetailsRecord r).ID] }) :
    motive (detailsRowStep rowNum r st) := by
  by_cases hlen : r.length < 8
  · rw [detailsRowStep_shortRow rowNum r st hlen]
    exact hshort hlen
  by_cases hid : (parseAntibioticDetailsRecord r).ID = ""
  · rw [detailsRowStep_missingId rowNum r st hlen hid]
    exact hmiss hlen hid
  by_cases hpm : (parseAntibioticDetailsRecord r).ParentKey ≠ "" ∧
      patientLookup st.db (parseAntibioticDetailsRecord r).ParentKey ≠ .found
  · rw [detailsRowStep_parentMissing rowNum r st hlen hid hpm]
    exact hparent hlen hid hpm.1 hpm.2
  · by_cases hlk : lookupBy (st.db.antibioticDetails.map (fun d => d.ID)) st.db.lookupFailKeys
        (parseAntibioticDetailsRecord r).ID = .found
    · rw [detailsRowStep_existsFound rowNum r st hlen hid hpm hlk]
      exact hfound hlen hid hlk
    · have hdet := detailsRowStep_createOk rowNum r st hlen hid hpm hlk
      by_cases hcf : (parseAntibioticDetailsRecord r).ID ∈ st.db.createFailKeys
      · rw [detailsRowStep_createFailLemma rowNum r st hlen hid hpm hlk hcf]
        exact hcfail hlen hid hlk hcf
      · rw [hdet hcf]
        exact hcok hlen hid hlk hcf

/-! ### Operation-level errors (claim C1) -/

/-- A counting importer on a CSV read error: fatal, nothing persisted. -/
theorem runImport_readError {E : Type} (cfg : ImportConfig E) (e : String) (db : DB) :
    runImport cfg (.error e) db =
      ({ result := emptyResult, db := db, created := [] },
        some ("error reading CSV file: " ++ e)) := rfl

/-- A counting importer on fewer than two rows: fatal, nothing persisted. -/
theorem runImport_short {E : Type} (cfg : ImportConfig E) (records : List (List String))
    (db : DB) (h : records.length < 2) :
    runImport cfg (.ok records) db =
      ({ result := emptyResult, db := db, created := [] },
        some "CSV file must have at least a header row and one data row") := by
  simp only [runImport]
  rw [if_pos h]

/-- A counting importer on two or more rows runs the row loop and returns a
nil operation error. -/
theorem runImport_ok {E : Type} (cfg : ImportConfig E) (records : List (List String))
    (db : DB) (h : ¬records.length < 2) :
    runImport cfg (.ok records) db =
      (processRows cfg (records.drop 1) 2
        { result := { emptyResult with TotalRecords := records.length - 1 }
          db := db, created := [] }, none) := by
  simp only [runImport]
  rw [if_neg h]

/-- A non-nil operation error from a counting importer can only come from
the two structural checks. -/
theorem runImport_opErr {E : Type} (cfg : ImportConfig E)
    (input : Except String (List (List String))) (db : DB)
    (h : (runImport cfg input db).2 ≠ none) :
    (∃ e, input = .error e) ∨ (∃ rs, input = .ok rs ∧ rs.length < 2) := by
  cases input with
  | error e => exact Or.inl ⟨e, rfl⟩
  | ok rs =>
    by_cases hl : rs.length < 2
    · exact Or.inr ⟨rs, rfl, hl⟩
    · rw [runImport_ok cfg rs db hl] at h
      simp at h

/-- C1 (counterexample): `ImportAntibioticDetails` on a one-row file returns
a nil operation error (it only records the failure in the report), refuting
the claim that every entry point returns a non-nil error in that case. -/
theorem C1_counterexample :
    (ImportAntibioticDetails (.ok [["header"]]) {}).2 = none := rfl

/-- C1 (amended): on an input parsed to fewer than two rows, the five
counting importers return a non-nil operation error with nothing persisted
and the database untouched, while `ImportAntibioticDetails` records the
failure in the report's error list and returns a nil error (also persisting
nothing); and the only non-nil operation errors any importer returns arise
from a CSV read failure or (for the five counting importers) the
fewer-than-two-rows check. -/
theorem C1_structural_failures :
    (∀ (records : List (List String)) (db : DB), records.length < 2 →
      ImportPatients (.ok records) db =
        ({ result := emptyResult, db := db, created := [] },
          some "CSV file must have at least a header row and one data row") ∧
      ImportAntibiotics (.ok records) db =
        ({ result := emptyResult, db := db, created := [] },
          some "CSV file must have at least a header row and one data row") ∧
      ImportIndications (.ok records) db =
        ({ result := emptyResult, db := db, created := [] },
          some "CSV file must have at least a header row and one data row") ∧
      ImportOptionalVars (.ok records) db =
        ({ result := emptyResult, db := db, created := [] },
          some "CSV file must have at least a header row and one data row") ∧
      ImportSpecimens (.ok records) db =
        ({ result := emptyResult, db := db, created := [] },
          some "CSV file must have at least a header row and one data row") ∧
      ImportAntibioticDetails (.ok records) db =
        ({ result := { emptyResult with
             Errors := ["CSV file must contain at least a header row and one data row"] }
           db := db, created := [] }, none)) ∧
    (∀ (input : Except String (List (List String))) (db : DB),
      ((ImportPatients input db).2 ≠ none →
        (∃ e, input = .error e) ∨ (∃ rs, input = .ok rs ∧ rs.length < 2)) ∧
      ((ImportAntibiotics input db).2 ≠ none →
        (∃ e, input = .error e) ∨ (∃ rs, input = .ok rs ∧ rs.length < 2)) ∧
      ((ImportIndications input db).2 ≠ none →
        (∃ e, input = .error e) ∨ (∃ rs, input = .ok rs ∧ rs.length < 2)) ∧
      ((ImportOptionalVars input db).2 ≠ none →
        (∃ e, input = .error e) ∨ (∃ rs, input = .ok rs ∧ rs.length < 2)) ∧
      ((ImportSpecimens input db).2 ≠ none →
        (∃ e, input = .error e) ∨ (∃ rs, input = .ok rs ∧ rs.length < 2)) ∧
      ((ImportAntibioticDetails input db).2 ≠ none → ∃ e, input = .error e)) := by
  constructor
  · intro records db h
    refine ⟨runImport_short _ _ _ h, runImport_short _ _ _ h, runImport_short _ _ _ h,
      runImport_short _ _ _ h, runImport_short _ _ _ h, ?_⟩
    simp only [ImportAntibioticDetails]
    rw [if_pos h]
  · intro input db
    refine ⟨runImport_opErr _ input db, runImport_opErr _ input db,
      runImport_opErr _ input db, runImport_opErr _ input db,
      runImport_opErr _ input db, ?_⟩
    intro h
    cases input with
    | error e => exact ⟨e, rfl⟩
    | ok rs =>
      exfalso
      apply h
      simp only [ImportAntibioticDetails]
      by_cases hl : rs.length < 2
      · rw [if_pos hl]
      · rw [if_neg hl]

/-- Witness for `C1_structural_failures` at a concrete one-row input. -/
theorem C1_witness :
    ImportPatients (.ok [["h"]]) {} =
      ({ result := emptyResult, db := {}, created := [] },
        some "CSV file must have at least a header row and one data row") :=
  (C1_structural_failures.1 [["h"]] {} (by decide)).1

/-! ### Short data rows (claim C2) -/

/-- C2 (counterexample): a short data row under `ImportAntibioticDetails`
records the structured error but increments neither `skipped_records` nor
`processed_records`, refuting the claim for that importer. -/
theorem C2_counterexample :
    (ImportAntibioticDetails (.ok [["h"], ["a", "b"]]) {}).1.result.Errors =
      ["Row 2: insufficient columns (expected at least 8, got 2)"] ∧
    (ImportAntibioticDetails (.ok [["h"], ["a", "b"]]) {}).1.result.SkippedRecords = 0 ∧
    (ImportAntibioticDetails (.ok [["h"], ["a", "b"]]) {}).1.result.ProcessedRecords = 0 ∧
    (ImportAntibioticDetails (.ok [["h"], ["a", "b"]]) {}).1.created = [] := by
  refine ⟨?_, rfl, rfl, rfl⟩
  rfl

/-- C2 (amended): in the five counting importers, a data row with fewer
cells than the entity minimum (56, 15, 9, 8, 7) triggers no persistence
call, records a structured error naming the row number, and increments both
`skipped_records` and `processed_records`; under `ImportAntibioticDetails`
(minimum 8) the structured error is recorded and nothing is persisted, but
no counter moves. -/
theorem C2_short_rows :
    (∀ (st : ImportState) (rowNum : Nat) (record : List String), record.length < 56 →
      rowStep patientCfg rowNum record st =
        { st with result :=
            { st.result with
              ProcessedRecords := st.result.ProcessedRecords + 1
              SkippedRecords := st.result.SkippedRecords + 1
              Errors := st.result.Errors ++ [insufficientColsMsg rowNum 56 record.length] } }) ∧
    (∀ (st : ImportState) (rowNum : Nat) (record : List String), record.length < 15 →
      rowStep antibioticCfg rowNum record st =
        { st with result :=
            { st.result with
              ProcessedRecords := st.result.ProcessedRecords + 1
              SkippedRecords := st.result.SkippedRecords + 1
              Errors := st.result.Errors ++ [insufficientColsMsg rowNum 15 record.length] } }) ∧
    (∀ (st : ImportState) (rowNum : Nat) (record : List String), record.length < 9 →
      rowStep indicationCfg rowNum record st =
        { st with result :=
            { st.result with
              ProcessedRecords := st.result.ProcessedRecords + 1
              SkippedRecords := st.result.SkippedRecords + 1
              Errors := st.result.Errors ++ [insufficientColsMsg rowNum 9 record.length] } }) ∧
    (∀ (st : ImportState) (rowNum : Nat) (record : List String), record.length < 8 →
      rowStep optionalVarCfg rowNum record st =
        { st with result :=
            { st.result with
              ProcessedRecords := st.result.ProcessedRecords + 1
              SkippedRecords := st.result.SkippedRecords + 1
              Errors := st.result.Errors ++ [insufficientColsMsg rowNum 8 record.length] } }) ∧
    (∀ (st : ImportState) (rowNum : Nat) (record : List String), record.length < 7 →
      rowStep specimenCfg rowNum record st =
        { st with result :=
            { st.result with
              ProcessedRecords := st.result.ProcessedRecords + 1
              SkippedRecords := st.result.SkippedRecords + 1
              Errors := st.result.Errors ++ [insufficientColsMsg rowNum 7 record.length] } }) ∧
    (∀ (st : ImportState) (rowNum : Nat) (record : List String), record.length < 8 →
      detailsRowStep rowNum record st =
        { st with result :=
            { st.result with
              Errors := st.result.Errors ++ [insufficientColsMsg rowNum 8 record.length] } }) :=
  ⟨fun st rowNum record h => rowStep_shortRow patientCfg rowNum record st h,
   fun st rowNum record h => rowStep_shortRow antibioticCfg rowNum record st h,
   fun st rowNum record h => rowStep_shortRow indicationCfg rowNum record st h,
   fun st rowNum record h => rowStep_shortRow optionalVarCfg rowNum record st h,
   fun st rowNum record h => rowStep_shortRow specimenCfg rowNum record st h,
   fun st rowNum record h => detailsRowStep_shortRow rowNum record st h⟩

/-- Witness for `C2_short_rows` at a concrete short row. -/
theorem C2_witness :
    rowStep patientCfg 2 ["a"] { result := emptyResult, db := {}, created := [] } =
      { result := { emptyResult with
          ProcessedRecords := 1, SkippedRecords := 1
          Errors := [insufficientColsMsg 2 56 1] }
        db := {}, created := [] } :=
  C2_short_rows.1 { result := emptyResult, db := {}, created := [] } 2 ["a"] (by decide)

/-! ### Empty identifiers (claim C6) -/

/-- `rowStep` preserves non-emptiness of every traced key: the `Create`
branch is only reachable after the missing-ID guard. -/
theorem rowStep_created_nonempty {E : Type} (cfg : ImportConfig E) (rowNum : Nat)
    (r : List String) (st : ImportState) (h : ∀ k ∈ st.created, k ≠ "") :
    ∀ k ∈ (rowStep cfg rowNum r st).created, k ≠ "" := by
  refine rowStep_cases (motive := fun st' => ∀ k ∈ st'.created, k ≠ "") cfg rowNum r st
    (fun _ => h) (fun _ _ => h) (fun _ _ _ => h) (fun _ _ _ => h)
    (fun _ _ _ _ _ _ => h) (fun _ _ _ _ _ => h) ?_
  intro _ hid _ _ _ k hk
  rcases List.mem_append.mp hk with hk1 | hk2
  · exact h k hk1
  · rw [List.mem_singleton.mp hk2]
    exact hid

/-- The row loop preserves non-emptiness of every traced key. -/
theorem processRows_created_nonempty {E : Type} (cfg : ImportConfig E)
    (rows : List (List String)) (rowNum : Nat) (st : ImportState)
    (h : ∀ k ∈ st.created, k ≠ "") :
    ∀ k ∈ (processRows cfg rows rowNum st).created, k ≠ "" := by
  induction rows generalizing rowNum st with
  | nil => exact h
  | cons r rest ih => exact ih _ _ (rowStep_created_nonempty cfg rowNum r st h)

/-- Every key a counting importer ever passes to a successful `Create` is
non-empty. -/
theorem runImport_created_nonempty {E : Type} (cfg : ImportConfig E)
    (input : Except String (List (List String))) (db : DB) :
    ∀ k ∈ (runImport cfg input db).1.created, k ≠ "" := by
  cases input with
  | error e =>
    rw [runImport_readError]
    intro k hk
    simp at hk
  | ok rs =>
    by_cases hl : rs.length < 2
    · rw [runImport_short cfg rs db hl]
      intro k hk
      simp at hk
    · rw [runImport_ok cfg rs db hl]
      exact processRows_created_nonempty cfg _ 2 _ (by intro k hk; simp at hk)

/-- `detailsRowStep` preserves non-emptiness of every traced key. -/
theorem detailsRowStep_created_nonempty (rowNum : Nat) (r : List String)
    (st : ImportState) (h : ∀ k ∈ st.created, k ≠ "") :
    ∀ k ∈ (detailsRowStep rowNum r st).created, k ≠ "" := by
  refine detailsRowStep_cases (motive := fun st' => ∀ k ∈ st'.created, k ≠ "") rowNum r st
    (fun _ => h) (fun _ _ => h) (fun _ _ _ _ => h) (fun _ _ _ => h)
    (fun _ _ _ _ => h) ?_
  intro _ hid _ _ k hk
  rcases List.mem_append.mp hk with hk1 | hk2
  · exact h k hk1
  · rw [List.mem_singleton.mp hk2]
    exact hid

/-- The details row loop preserves non-emptiness of every traced key. -/
theorem processDetailsRows_created_nonempty (rows : List (List String)) (rowNum : Nat)
    (st : ImportState) (h : ∀ k ∈ st.created, k ≠ "") :
    ∀ k ∈ (processDetailsRows rows rowNum st).created, k ≠ "" := by
  induction rows generalizing rowNum st with
  | nil => exact h
  | cons r rest ih => exact ih _ _ (detailsRowStep_created_nonempty rowNum r st h)

/-- Every key `ImportAntibioticDetails` ever passes to a successful `Create`
is non-empty. -/
theorem detailsImport_created_nonempty (input : Except String (List (List String)))
    (db : DB) : ∀ k ∈ (ImportAntibioticDetails input db).1.created, k ≠ "" := by
  cases input with
  | error e =>
    intro k hk
    simp [ImportAntibioticDetails] at hk
  | ok rs =>
    by_cases hl : rs.length < 2
    · intro k hk
      simp only [ImportAntibioticDetails] at hk
      rw [if_pos hl] at hk
      simp at hk
    · simp only [ImportAntibioticDetails]
      rw [if_neg hl]
      exact processDetailsRows_created_nonempty _ 2 _ (by intro k hk; simp at hk)

/-- C6 (counterexample): an `ImportAntibioticDetails` data row with an empty
derived identifier records the error and persists nothing, but is not
counted as skipped (`skipped_records` stays 0), refuting the claim for
that importer. -/
theorem C6_counterexample :
    (ImportAntibioticDetails
        (.ok [["h"], ["a", "b", "c", "d", "e", "f", "g", ""]]) {}).1.result.Errors =
      ["Row 2: missing antibiotic details ID"] ∧
    (ImportAntibioticDetails
        (.ok [["h"], ["a", "b", "c", "d", "e", "f", "g", ""]]) {}).1.result.SkippedRecords = 0 ∧
    (ImportAntibioticDetails
        (.ok [["h"], ["a", "b", "c", "d", "e", "f", "g", ""]]) {}).1.created = [] := by
  refine ⟨?_, rfl, rfl⟩
  rfl

/-- C6 (amended): a data row whose parsed identifier is empty triggers no
persistence call in any importer; the five counting importers additionally
record a `missing ... ID` error and count the row as skipped, while the
`ImportAntibioticDetails` one records the error without touching any counter.
Consequently no record with an empty identifier is ever persisted: every key
in the persistence trace of all six importers is non-empty. -/
theorem C6_empty_identifier :
    (∀ (st : ImportState) (rowNum : Nat) (record : List String),
      ¬record.length < 56 → (parsePatientRecord record).ID = "" →
      rowStep patientCfg rowNum record st =
        { st with result :=
            { st.result with
              ProcessedRecords := st.result.ProcessedRecords + 1
              SkippedRecords := st.result.SkippedRecords + 1
              Errors := st.result.Errors ++ [missingIdMsg rowNum "patient"] } }) ∧
    (∀ (st : ImportState) (rowNum : Nat) (record : List String),
      ¬record.length < 15 → (parseAntibioticRecord record).ID = "" →
      rowStep antibioticCfg rowNum record st =
        { st with result :=
            { st.result with
              ProcessedRecords := st.result.ProcessedRecords + 1
              SkippedRecords := st.result.SkippedRecords + 1
              Errors := st.result.Errors ++ [missingIdMsg rowNum "antibiotic"] } }) ∧
    (∀ (st : ImportState) (rowNum : Nat) (record : List String),
      ¬record.length < 9 → (parseIndicationRecord record).ID = "" →
      rowStep indicationCfg rowNum record st =
        { st with result :=
            { st.result with
              ProcessedRecords := st.result.ProcessedRecords + 1
              SkippedRecords := st.result.SkippedRecords + 1
              Errors := st.result.Errors ++ [missingIdMsg rowNum "indication"] } }) ∧
    (∀ (st : ImportState) (rowNum : Nat) (record : List String),
      ¬record.length < 8 → (parseOptionalVarRecord record).ID = "" →
      rowStep optionalVarCfg rowNum record st =
        { st with result :=
            { st.result with
              ProcessedRecords := st.result.ProcessedRecords + 1
              SkippedRecords := st.result.SkippedRecords + 1
              Errors := st.result.Errors ++ [missingIdMsg rowNum "optional var"] } }) ∧
    (∀ (st : ImportState) (rowNum : Nat) (record : List String),
      ¬record.length < 7 → (parseSpecimenRecord record).ID = "" →
      rowStep specimenCfg rowNum record st =
        { st with result :=
            { st.result with
              ProcessedRecords := st.result.ProcessedRecords + 1
              SkippedRecords := st.result.SkippedRecords + 1
              Errors := st.result.Errors ++ [missingIdMsg rowNum "specimen"] } }) ∧
    (∀ (st : ImportState) (rowNum : Nat) (record : List String),
      ¬record.length < 8 → (parseAntibioticDetailsRecord record).ID = "" →
      detailsRowStep rowNum record st =
        { st with result :=
            { st.result with
              Errors := st.result.Errors ++
                [rowMsg rowNum "missing antibiotic details ID"] } }) ∧
    (∀ (input : Except String (List (List String))) (db : DB),
      (∀ k ∈ (ImportPatients input db).1.created, k ≠ "") ∧
      (∀ k ∈ (ImportAntibiotics input db).1.created, k ≠ "") ∧
      (∀ k ∈ (ImportIndications input db).1.created, k ≠ "") ∧
      (∀ k ∈ (ImportOptionalVars input db).1.created, k ≠ "") ∧
      (∀ k ∈ (ImportSpecimens input db).1.created, k ≠ "") ∧
      (∀ k ∈ (ImportAntibioticDetails input db).1.created, k ≠ "")) := by
  refine ⟨?_, ?_, ?_, ?_, ?_, ?_, ?_⟩
  · exact fun st rowNum record h1 h2 => rowStep_missingId patientCfg rowNum record st h1 h2
  · exact fun st rowNum record h1 h2 => rowStep_missingId antibioticCfg rowNum record st h1 h2
  · exact fun st rowNum record h1 h2 => rowStep_missingId indicationCfg rowNum record st h1 h2
  · exact fun st rowNum record h1 h2 => rowStep_missingId optionalVarCfg rowNum record st h1 h2
  · exact fun st rowNum record h1 h2 => rowStep_missingId specimenCfg rowNum record st h1 h2
  · exact fun st rowNum record h1 h2 => detailsRowStep_missingId rowNum record st h1 h2
  · intro input db
    exact ⟨runImport_created_nonempty _ input db, runImport_created_nonempty _ input db,
      runImport_created_nonempty _ input db, runImport_created_nonempty _ input db,
      runImport_created_nonempty _ input db, detailsImport_created_nonempty input db⟩

/-- Witness for `C6_empty_identifier` at a concrete empty-ID row. -/
theorem C6_witness :
    rowStep specimenCfg 2 ["s", "c", "m", "a", "r", "p", ""]
        { result := emptyResult, db := {}, created := [] } =
      { result := { emptyResult with
          ProcessedRecords := 1, SkippedRecords := 1
          Errors := [missingIdMsg 2 "specimen"] }
        db := {}, created := [] } :=
  C6_empty_identifier.2.2.2.2.1
    { result := emptyResult, db := {}, created := [] } 2
    ["s", "c", "m", "a", "r", "p", ""] (by decide) (by decide)

/-! ### Parent-lookup failures (claims C4 and C7) -/

/-- A key not among the stored patient keys never yields `found`. -/
theorem patientLookup_not_found_of_not_mem (db : DB) (k : String)
    (h : k ∉ patientKeys db) : patientLookup db k ≠ .found := by
  unfold patientLookup lookupBy
  by_cases hf : k ∈ db.lookupFailKeys
  · rw [if_pos hf]
    intro hc
    exact LookupResult.noConfusion hc
  · rw [if_neg hf, if_neg h]
    intro hc
    exact LookupResult.noConfusion hc

/-- The parent-not-found message decomposes around the missing parent key
and the child identifier: both appear verbatim inside it. -/
theorem parentMsg_decomposition (rowNum : Nat) (name parentK id : String) :
    parentMsg rowNum name parentK id =
      ("Row " ++ Nat.repr rowNum ++ ": parent patient ") ++ parentK ++
        (" not found for " ++ name ++ " ") ++ id := by
  apply String.ext
  simp [parentMsg, rowMsg]

/-- C4 (counterexample): a parent lookup that fails with a driver error
(`p1` is on the lookup-failure list, a reason other than "record not found")
records exactly the same message as the run where the parent simply does not
exist — the claim's "distinct error message" is refuted. -/
theorem C4_counterexample :
    (ImportAntibiotics
        (.ok [["h"], ["", "", "", "", "", "", "", "", "", "", "", "", "", "p1", "k1"]])
        { lookupFailKeys := ["p1"] }).1.result.Errors =
      (ImportAntibiotics
        (.ok [["h"], ["", "", "", "", "", "", "", "", "", "", "", "", "", "p1", "k1"]])
        {}).1.result.Errors ∧
    (ImportAntibiotics
        (.ok [["h"], ["", "", "", "", "", "", "", "", "", "", "", "", "", "p1", "k1"]])
        { lookupFailKeys := ["p1"] }).1.result.Errors =
      ["Row 2: parent patient p1 not found for antibiotic k1"] := by
  constructor
  · rfl
  · rfl

/-- C4 (amended): when the parent-Patient lookup of a child row fails for a
reason other than "record not found" (a driver error), the row is skipped
without a persistence call and without a retry, but the recorded message is
the very same `parent patient ... not found ...` message used when the
parent does not exist — the source tests only `err != nil` at the parent
check and does not distinguish the causes. -/
theorem C4_parent_lookup_failure :
    (∀ {E : Type} (cfg : ImportConfig E) (rowNum : Nat) (record : List String)
      (st : ImportState),
      ¬record.length < cfg.minCols → cfg.recId (cfg.parse record) ≠ "" →
      lookupBy ((cfg.getColl st.db).map cfg.recId) st.db.lookupFailKeys
        (cfg.recId (cfg.parse record)) = .notFound →
      cfg.checkParent = true → cfg.parentKey (cfg.parse record) ≠ "" →
      patientLookup st.db (cfg.parentKey (cfg.parse record)) = .dbError →
      rowStep cfg rowNum record st =
        { st with result :=
            { st.result with
              ProcessedRecords := st.result.ProcessedRecords + 1
              SkippedRecords := st.result.SkippedRecords + 1
              Errors := st.result.Errors ++
                [parentMsg rowNum cfg.entityName (cfg.parentKey (cfg.parse record))
                  (cfg.recId (cfg.parse record))] } }) ∧
    (∀ (rowNum : Nat) (record : List String) (st : ImportState),
      ¬record.length < 8 → (parseAntibioticDetailsRecord record).ID ≠ "" →
      (parseAntibioticDetailsRecord record).ParentKey ≠ "" →
      patientLookup st.db (parseAntibioticDetailsRecord record).ParentKey = .dbError →
      detailsRowStep rowNum record st =
        { st with result :=
            { st.result with
              Errors := st.result.Errors ++
                [parentMsg rowNum "antibiotic details"
                  (parseAntibioticDetailsRecord record).ParentKey
                  (parseAntibioticDetailsRecord record).ID] } }) := by
  constructor
  · intro E cfg rowNum record st hlen hid hlk hcp hpk hpl
    exact rowStep_parentMissing cfg rowNum record st hlen hid hlk hcp hpk
      (by rw [hpl]; intro hc; exact LookupResult.noConfusion hc)
  · intro rowNum record st hlen hid hpk hpl
    exact detailsRowStep_parentMissing rowNum record st hlen hid
      ⟨hpk, by rw [hpl]; intro hc; exact LookupResult.noConfusion hc⟩

/-- Witness for `C4_parent_lookup_failure` at a concrete row and database. -/
theorem C4_witness :
    rowStep antibioticCfg 2
        ["", "", "", "", "", "", "", "", "", "", "", "", "", "p1", "k1"]
        { result := emptyResult, db := { lookupFailKeys := ["p1"] }, created := [] } =
      { result := { emptyResult with
          ProcessedRecords := 1, SkippedRecords := 1
          Errors := [parentMsg 2 "antibiotic" "p1" "k1"] }
        db := { lookupFailKeys := ["p1"] }, created := [] } :=
  C4_parent_lookup_failure.1 antibioticCfg 2
    ["", "", "", "", "", "", "", "", "", "", "", "", "", "p1", "k1"]
    { result := emptyResult, db := { lookupFailKeys := ["p1"] }, created := [] }
    (by decide) (by decide) (by decide) rfl (by decide) (by decide)

/-- C7 (counterexample): an antibiotic row whose identifier already exists
is skipped by the duplicate check *before* the parent check, so a row with a
missing parent (`p1` matches no patient) and an already-stored identifier
`k1` produces an empty error list — the claimed message naming both keys is
never recorded. -/
theorem C7_counterexample :
    (ImportAntibiotics
        (.ok [["h"], ["", "", "", "", "", "", "", "", "", "", "", "", "", "p1", "k1"]])
        { antibiotics := [{ ID := "k1" }] }).1.result.Errors = [] ∧
    (ImportAntibiotics
        (.ok [["h"], ["", "", "", "", "", "", "", "", "", "", "", "", "", "p1", "k1"]])
        { antibiotics := [{ ID := "k1" }] }).1.result.SkippedRecords = 1 ∧
    (ImportAntibiotics
        (.ok [["h"], ["", "", "", "", "", "", "", "", "", "", "", "", "", "p1", "k1"]])
        { antibiotics := [{ ID := "k1" }] }).1.created = [] := by
  refine ⟨?_, rfl, rfl⟩
  rfl

/-- C7 (amended): a child-entity data row with a non-empty parent key that
matches no stored Patient identifier is skipped without a persistence call,
and — provided the row survives the earlier guards (enough columns,
non-empty identifier, and a duplicate check that returns "not found", since
the duplicate check precedes the parent check in the counting importers) —
the error list gains the `parent patient ... not found ...` message, which
contains the missing parent key and the row's own identifier verbatim. -/
theorem C7_missing_parent :
    (∀ {E : Type} (cfg : ImportConfig E) (rowNum : Nat) (record : List String)
      (st : ImportState),
      ¬record.length < cfg.minCols → cfg.recId (cfg.parse record) ≠ "" →
      lookupBy ((cfg.getColl st.db).map cfg.recId) st.db.lookupFailKeys
        (cfg.recId (cfg.parse record)) = .notFound →
      cfg.checkParent = true → cfg.parentKey (cfg.parse record) ≠ "" →
      cfg.parentKey (cfg.parse record) ∉ patientKeys st.db →
      rowStep cfg rowNum record st =
        { st with result :=
            { st.result with
              ProcessedRecords := st.result.ProcessedRecords + 1
              SkippedRecords := st.result.SkippedRecords + 1
              Errors := st.result.Errors ++
                [parentMsg rowNum cfg.entityName (cfg.parentKey (cfg.parse record))
                  (cfg.recId (cfg.parse record))] } }) ∧
    (∀ (rowNum : Nat) (record : List String) (st : ImportState),
      ¬record.length < 8 → (parseAntibioticDetailsRecord record).ID ≠ "" →
      (parseAntibioticDetailsRecord record).ParentKey ≠ "" →
      (parseAntibioticDetailsRecord record).ParentKey ∉ patientKeys st.db →
      detailsRowStep rowNum record st =
        { st with result :=
            { st.result with
              Errors := st.result.Errors ++
                [parentMsg rowNum "antibiotic details"
                  (parseAntibioticDetailsRecord record).ParentKey
                  (parseAntibioticDetailsRecord record).ID] } }) ∧
    (∀ (rowNum : Nat) (name parentK id : String),
      parentMsg rowNum name parentK id =
        ("Row " ++ Nat.repr rowNum ++ ": parent patient ") ++ parentK ++
          (" not found for " ++ name ++ " ") ++ id) := by
  refine ⟨?_, ?_, parentMsg_decomposition⟩
  · intro E cfg rowNum record st hlen hid hlk hcp hpk hpm
    exact rowStep_parentMissing cfg rowNum record st hlen hid hlk hcp hpk
      (patientLookup_not_found_of_not_mem st.db _ hpm)
  · intro rowNum record st hlen hid hpk hpm
    exact detailsRowStep_parentMissing rowNum record st hlen hid
      ⟨hpk, patientLookup_not_found_of_not_mem st.db _ hpm⟩

/-- Witness for `C7_missing_parent` at a concrete row and database. -/
theorem C7_witness :
    rowStep specimenCfg 2 ["s", "c", "m", "a", "r", "p1", "k1"]
        { result := emptyResult, db := {}, created := [] } =
      { result := { emptyResult with
          ProcessedRecords := 1, SkippedRecords := 1
          Errors := [parentMsg 2 "specimen" "p1" "k1"] }
        db := {}, created := [] } :=
  C7_missing_parent.1 specimenCfg 2 ["s", "c", "m", "a", "r", "p1", "k1"]
    { result := emptyResult, db := {}, created := [] }
    (by decide) (by decide) (by decide) rfl (by decide) (by decide)

/-! ### Report consistency (claim C9) -/

/-- Counter bookkeeping of a single row: the total is untouched, processed
advances by one, updated is untouched, exactly one of inserted/skipped
advances by one, and the error list grows by at most the skip increment. -/
theorem rowStep_counters {E : Type} (cfg : ImportConfig E) (rowNum : Nat)
    (r : List String) (st : ImportState) :
    (rowStep cfg rowNum r st).result.TotalRecords = st.result.TotalRecords ∧
    (rowStep cfg rowNum r st).result.ProcessedRecords = st.result.ProcessedRecords + 1 ∧
    (rowStep cfg rowNum r st).result.UpdatedRecords = st.result.UpdatedRecords ∧
    (rowStep cfg rowNum r st).result.InsertedRecords +
        (rowStep cfg rowNum r st).result.SkippedRecords =
      st.result.InsertedRecords + st.result.SkippedRecords + 1 ∧
    (rowStep cfg rowNum r st).result.Errors.length + st.result.SkippedRecords ≤
      st.result.Errors.length + (rowStep cfg rowNum r st).result.SkippedRecords := by
  refine rowStep_cases (motive := fun st' =>
      st'.result.TotalRecords = st.result.TotalRecords ∧
      st'.result.ProcessedRecords = st.result.ProcessedRecords + 1 ∧
      st'.result.UpdatedRecords = st.result.UpdatedRecords ∧
      st'.result.InsertedRecords + st'.result.SkippedRecords =
        st.result.InsertedRecords + st.result.SkippedRecords + 1 ∧
      st'.result.Errors.length + st.result.SkippedRecords ≤
        st.result.Errors.length + st'.result.SkippedRecords)
    cfg rowNum r st ?_ ?_ ?_ ?_ ?_ ?_ ?_ <;>
    intros <;>
    refine ⟨rfl, rfl, rfl, ?_, ?_⟩ <;>
    (try simp [List.length_append]) <;>
    omega

/-- Counter bookkeeping of the whole row loop. -/
theorem processRows_counters {E : Type} (cfg : ImportConfig E)
    (rows : List (List String)) (rowNum : Nat) (st : ImportState) :
    (processRows cfg rows rowNum st).result.TotalRecords = st.result.TotalRecords ∧
    (processRows cfg rows rowNum st).result.ProcessedRecords =
      st.result.ProcessedRecords + rows.length ∧
    (processRows cfg rows rowNum st).result.UpdatedRecords = st.result.UpdatedRecords ∧
    (processRows cfg rows rowNum st).result.InsertedRecords +
        (processRows cfg rows rowNum st).result.SkippedRecords =
      st.result.InsertedRecords + st.result.SkippedRecords + rows.length ∧
    (processRows cfg rows rowNum st).result.Errors.length + st.result.SkippedRecords ≤
      st.result.Errors.length + (processRows cfg rows rowNum st).result.SkippedRecords := by
  induction rows generalizing rowNum st with
  | nil => refine ⟨rfl, ?_, rfl, ?_, ?_⟩ <;> simp [processRows]
  | cons r rest ih =>
    have hstep := rowStep_counters cfg rowNum r st
    have hrest := ih (rowNum + 1) (rowStep cfg rowNum r st)
    simp only [processRows, List.length_cons]
    exact ⟨by omega, by omega, by omega, by omega, by omega⟩

/-- The report invariant of a counting importer whose returned error is nil. -/
theorem runImport_consistency {E : Type} (cfg : ImportConfig E)
    (input : Except String (List (List String))) (db : DB)
    (h : (runImport cfg input db).2 = none) :
    (runImport cfg input db).1.result.ProcessedRecords =
      (runImport cfg input db).1.result.TotalRecords ∧
    (runImport cfg input db).1.result.InsertedRecords +
        (runImport cfg input db).1.result.SkippedRecords =
      (runImport cfg input db).1.result.ProcessedRecords ∧
    (runImport cfg input db).1.result.UpdatedRecords = 0 ∧
    (runImport cfg input db).1.result.Errors.length ≤
      (runImport cfg input db).1.result.SkippedRecords := by
  cases input with
  | error e =>
    rw [runImport_readError] at h
    simp at h
  | ok rs =>
    by_cases hl : rs.length < 2
    · rw [runImport_short cfg rs db hl] at h
      simp at h
    · rw [runImport_ok cfg rs db hl]
      have hc := processRows_counters cfg (rs.drop 1) 2
        { result := { emptyResult with TotalRecords := rs.length - 1 }
          db := db, created := [] }
      simp only [List.length_drop] at hc
      simp only [emptyResult, List.length_nil] at hc ⊢
      exact ⟨by omega, by omega, by omega, by omega⟩

/-- C9: whenever a counting importer returns a nil error, its report
satisfies `processed = total`, `inserted + skipped = processed`,
`updated = 0` and `|errors| ≤ skipped`. -/
theorem C9_report_consistency :
    ∀ (input : Except String (List (List String))) (db : DB),
      (∀ st err, ImportPatients input db = (st, err) → err = none →
        st.result.ProcessedRecords = st.result.TotalRecords ∧
        st.result.InsertedRecords + st.result.SkippedRecords = st.result.ProcessedRecords ∧
        st.result.UpdatedRecords = 0 ∧
        st.result.Errors.length ≤ st.result.SkippedRecords) ∧
      (∀ st err, ImportAntibiotics input db = (st, err) → err = none →
        st.result.ProcessedRecords = st.result.TotalRecords ∧
        st.result.InsertedRecords + st.result.SkippedRecords = st.result.ProcessedRecords ∧
        st.result.UpdatedRecords = 0 ∧
        st.result.Errors.length ≤ st.result.SkippedRecords) ∧
      (∀ st err, ImportIndications input db = (st, err) → err = none →
        st.result.ProcessedRecords = st.result.TotalRecords ∧
        st.result.InsertedRecords + st.result.SkippedRecords = st.result.ProcessedRecords ∧
        st.result.UpdatedRecords = 0 ∧
        st.result.Errors.length ≤ st.result.SkippedRecords) ∧
      (∀ st err, ImportOptionalVars input db = (st, err) → err = none →
        st.result.ProcessedRecords = st.result.TotalRecords ∧
        st.result.InsertedRecords + st.result.SkippedRecords = st.result.ProcessedRecords ∧
        st.result.UpdatedRecords = 0 ∧
        st.result.Errors.length ≤ st.result.SkippedRecords) ∧
      (∀ st err, ImportSpecimens input db = (st, err) → err = none →
        st.result.ProcessedRecords = st.result.TotalRecords ∧
        st.result.InsertedRecords + st.result.SkippedRecords = st.result.ProcessedRecords ∧
        st.result.UpdatedRecords = 0 ∧
        st.result.Errors.length ≤ st.result.SkippedRecords) := by
  intro input db
  refine ⟨?_, ?_, ?_, ?_, ?_⟩
  · intro st err heq hnone
    subst hnone
    have heq2 : runImport patientCfg input db = (st, none) := heq
    have hcons := runImport_consistency patientCfg input db (by rw [heq2])
    rw [heq2] at hcons
    exact hcons
  · intro st err heq hnone
    subst hnone
    have heq2 : runImport antibioticCfg input db = (st, none) := heq
    have hcons := runImport_consistency antibioticCfg input db (by rw [heq2])
    rw [heq2] at hcons
    exact hcons
  · intro st err heq hnone
    subst hnone
    have heq2 : runImport indicationCfg input db = (st, none) := heq
    have hcons := runImport_consistency indicationCfg input db (by rw [heq2])
    rw [heq2] at hcons
    exact hcons
  · intro st err heq hnone
    subst hnone
    have heq2 : runImport optionalVarCfg input db = (st, none) := heq
    have hcons := runImport_consistency optionalVarCfg input db (by rw [heq2])
    rw [heq2] at hcons
    exact hcons
  · intro st err heq hnone
    subst hnone
    have heq2 : runImport specimenCfg input db = (st, none) := heq
    have hcons := runImport_consistency specimenCfg input db (by rw [heq2])
    rw [heq2] at hcons
    exact hcons

/-- Witness for `C9_report_consistency` at a concrete two-row input. -/
theorem C9_witness :
    (ImportPatients (.ok [["h"], ["x"]]) {}).1.result.ProcessedRecords =
      (ImportPatients (.ok [["h"], ["x"]]) {}).1.result.TotalRecords ∧
    (ImportPatients (.ok [["h"], ["x"]]) {}).1.result.InsertedRecords +
        (ImportPatients (.ok [["h"], ["x"]]) {}).1.result.SkippedRecords =
      (ImportPatients (.ok [["h"], ["x"]]) {}).1.result.ProcessedRecords ∧
    (ImportPatients (.ok [["h"], ["x"]]) {}).1.result.UpdatedRecords = 0 ∧
    (ImportPatients (.ok [["h"], ["x"]]) {}).1.result.Errors.length ≤
      (ImportPatients (.ok [["h"], ["x"]]) {}).1.result.SkippedRecords :=
  (C9_report_consistency (.ok [["h"], ["x"]]) {}).1
    (ImportPatients (.ok [["h"], ["x"]]) {}).1
    (ImportPatients (.ok [["h"], ["x"]]) {}).2 rfl rfl

/-! ### Idempotence of the skip-if-exists importers (claim C8) -/

/-- The three collection laws every entity configuration satisfies: reading
back a written collection, and writes not touching the failure lists. -/
structure CfgLawful {E : Type} (cfg : ImportConfig E) : Prop where
  get_set : ∀ (db : DB) (l : List E), cfg.getColl (cfg.setColl db l) = l
  set_lookupFail : ∀ (db : DB) (l : List E),
    (cfg.setColl db l).lookupFailKeys = db.lookupFailKeys
  set_createFail : ∀ (db : DB) (l : List E),
    (cfg.setColl db l).createFailKeys = db.createFailKeys

theorem patientCfg_lawful : CfgLawful patientCfg :=
  ⟨fun _ _ => rfl, fun _ _ => rfl, fun _ _ => rfl⟩

theorem antibioticCfg_lawful : CfgLawful antibioticCfg :=
  ⟨fun _ _ => rfl, fun _ _ => rfl, fun _ _ => rfl⟩

theorem indicationCfg_lawful : CfgLawful indicationCfg :=
  ⟨fun _ _ => rfl, fun _ _ => rfl, fun _ _ => rfl⟩

theorem optionalVarCfg_lawful : CfgLawful optionalVarCfg :=
  ⟨fun _ _ => rfl, fun _ _ => rfl, fun _ _ => rfl⟩

theorem specimenCfg_lawful : CfgLawful specimenCfg :=
  ⟨fun _ _ => rfl, fun _ _ => rfl, fun _ _ => rfl⟩

/-- `notFound` means: not on the failure list and not among the keys. -/
theorem lookupBy_notFound_inv (keys fail : List String) (k : String)
    (h : lookupBy keys fail k = .notFound) : k ∉ fail ∧ k ∉ keys := by
  unfold lookupBy at h
  by_cases hf : k ∈ fail
  · rw [if_pos hf] at h
    exact absurd h (by intro hc; exact LookupResult.noConfusion hc)
  · rw [if_neg hf] at h
    by_cases hk : k ∈ keys
    · rw [if_pos hk] at h
      exact absurd h (by intro hc; exact LookupResult.noConfusion hc)
    · exact ⟨hf, hk⟩

/-- A stored key off the failure list is `found`. -/
theorem lookupBy_found_of_mem (keys fail : List String) (k : String)
    (hf : k ∉ fail) (hk : k ∈ keys) : lookupBy keys fail k = .found := by
  unfold lookupBy
  rw [if_neg hf, if_pos hk]

/-- One row never inserts more than one record. -/
theorem rowStep_inserted_le {E : Type} (cfg : ImportConfig E) (rowNum : Nat)
    (r : List String) (st : ImportState) :
    (rowStep cfg rowNum r st).result.InsertedRecords ≤ st.result.InsertedRecords + 1 := by
  refine rowStep_cases (motive := fun st' =>
      st'.result.InsertedRecords ≤ st.result.InsertedRecords + 1)
    cfg rowNum r st ?_ ?_ ?_ ?_ ?_ ?_ ?_ <;> intros <;> simp

/-- The loop never inserts more than one record per row. -/
theorem processRows_inserted_le {E : Type} (cfg : ImportConfig E)
    (rows : List (List String)) (rowNum : Nat) (st : ImportState) :
    (processRows cfg rows rowNum st).result.InsertedRecords ≤
      st.result.InsertedRecords + rows.length := by
  induction rows generalizing rowNum st with
  | nil => simp [processRows]
  | cons r rest ih =>
    have h1 := rowStep_inserted_le cfg rowNum r st
    have h2 := ih (rowNum + 1) (rowStep cfg rowNum r st)
    simp only [processRows, List.length_cons]
    omega

/-- A row that did insert took the `Create` branch: it passed every guard,
its key was absent (and off the failure lists), and the database got exactly
that record appended. -/
theorem rowStep_insert_inv {E : Type} (cfg : ImportConfig E) (rowNum : Nat)
    (r : List String) (st : ImportState)
    (h : (rowStep cfg rowNum r st).result.InsertedRecords =
      st.result.InsertedRecords + 1) :
    ¬r.length < cfg.minCols ∧ cfg.recId (cfg.parse r) ≠ "" ∧
    lookupBy ((cfg.getColl st.db).map cfg.recId) st.db.lookupFailKeys
      (cfg.recId (cfg.parse r)) = .notFound ∧
    (rowStep cfg rowNum r st).db =
      cfg.setColl st.db (cfg.getColl st.db ++ [cfg.parse r]) := by
  refine rowStep_cases (motive := fun st' =>
      st'.result.InsertedRecords = st.result.InsertedRecords + 1 →
      ¬r.length < cfg.minCols ∧ cfg.recId (cfg.parse r) ≠ "" ∧
      lookupBy ((cfg.getColl st.db).map cfg.recId) st.db.lookupFailKeys
        (cfg.recId (cfg.parse r)) = .notFound ∧
      st'.db = cfg.setColl st.db (cfg.getColl st.db ++ [cfg.parse r]))
    cfg rowNum r st ?_ ?_ ?_ ?_ ?_ ?_ ?_ h
  · intro _ hins
    simp at hins
  · intro _ _ hins
    simp at hins
  · intro _ _ _ hins
    simp at hins
  · intro _ _ _ hins
    simp at hins
  · intro _ _ _ _ _ _ hins
    simp at hins
  · intro _ _ _ _ _ hins
    simp at hins
  · intro hlen hid hlk _ _ _
    exact ⟨hlen, hid, hlk, rfl⟩

/-- The failure lists are invariant along a row. -/
theorem rowStep_failKeys {E : Type} (cfg : ImportConfig E) (law : CfgLawful cfg)
    (rowNum : Nat) (r : List String) (st : ImportState) :
    (rowStep cfg rowNum r st).db.lookupFailKeys = st.db.lookupFailKeys := by
  refine rowStep_cases (motive := fun st' =>
      st'.db.lookupFailKeys = st.db.lookupFailKeys)
    cfg rowNum r st ?_ ?_ ?_ ?_ ?_ ?_ ?_ <;> intros
  · rfl
  · rfl
  · rfl
  · rfl
  · rfl
  · rfl
  · exact law.set_lookupFail st.db _

/-- The failure lists are invariant along the whole loop. -/
theorem processRows_failKeys {E : Type} (cfg : ImportConfig E) (law : CfgLawful cfg)
    (rows : List (List String)) (rowNum : Nat) (st : ImportState) :
    (processRows cfg rows rowNum st).db.lookupFailKeys = st.db.lookupFailKeys := by
  induction rows generalizing rowNum st with
  | nil => rfl
  | cons r rest ih =>
    simp only [processRows]
    rw [ih (rowNum + 1) (rowStep cfg rowNum r st), rowStep_failKeys cfg law rowNum r st]

/-- Stored keys are never removed by a row. -/
theorem rowStep_keys_mono {E : Type} (cfg : ImportConfig E) (law : CfgLawful cfg)
    (rowNum : Nat) (r : List String) (st : ImportState) (k : String)
    (h : k ∈ (cfg.getColl st.db).map cfg.recId) :
    k ∈ (cfg.getColl (rowStep cfg rowNum r st).db).map cfg.recId := by
  refine rowStep_cases (motive := fun st' =>
      k ∈ (cfg.getColl st'.db).map cfg.recId)
    cfg rowNum r st ?_ ?_ ?_ ?_ ?_ ?_ ?_ <;> intros
  · exact h
  · exact h
  · exact h
  · exact h
  · exact h
  · exact h
  · rw [law.get_set]
    rw [List.map_append]
    exact List.mem_append_left _ h

/-- Stored keys are never removed by the loop. -/
theorem processRows_keys_mono {E : Type} (cfg : ImportConfig E) (law : CfgLawful cfg)
    (rows : List (List String)) (rowNum : Nat) (st : ImportState) (k : String)
    (h : k ∈ (cfg.getColl st.db).map cfg.recId) :
    k ∈ (cfg.getColl (processRows cfg rows rowNum st).db).map cfg.recId := by
  induction rows generalizing rowNum st with
  | nil => exact h
  | cons r rest ih =>
    exact ih (rowNum + 1) _ (rowStep_keys_mono cfg law rowNum r st k h)

/-- First-run analysis: if a loop run inserted one record per row, then every
row passed the length and identifier guards, and its key ends up stored in
the final database, off the lookup-failure list. -/
theorem processRows_all_inserted {E : Type} (cfg : ImportConfig E) (law : CfgLawful cfg)
    (rows : List (List String)) (rowNum : Nat) (st : ImportState)
    (h : (processRows cfg rows rowNum st).result.InsertedRecords =
      st.result.InsertedRecords + rows.length) :
    ∀ r ∈ rows,
      ¬r.length < cfg.minCols ∧ cfg.recId (cfg.parse r) ≠ "" ∧
      cfg.recId (cfg.parse r) ∈
        (cfg.getColl (processRows cfg rows rowNum st).db).map cfg.recId ∧
      cfg.recId (cfg.parse r) ∉ (processRows cfg rows rowNum st).db.lookupFailKeys := by
  induction rows generalizing rowNum st with
  | nil => intro r hr; simp at hr
  | cons r rest ih =>
    simp only [processRows, List.length_cons] at h ⊢
    have hle1 := rowStep_inserted_le cfg rowNum r st
    have hle2 := processRows_inserted_le cfg rest (rowNum + 1) (rowStep cfg rowNum r st)
    have hstep : (rowStep cfg rowNum r st).result.InsertedRecords =
        st.result.InsertedRecords + 1 := by omega
    obtain ⟨hlen, hid, hlk, hdb⟩ := rowStep_insert_inv cfg rowNum r st hstep
    have hrest : (processRows cfg rest (rowNum + 1) (rowStep cfg rowNum r st)).result.InsertedRecords =
        (rowStep cfg rowNum r st).result.InsertedRecords + rest.length := by omega
    have hnf := lookupBy_notFound_inv _ _ _ hlk
    intro r' hr'
    rcases List.mem_cons.mp hr' with hr1 | hr2
    · subst hr1
      refine ⟨hlen, hid, ?_, ?_⟩
      · apply processRows_keys_mono cfg law rest (rowNum + 1) _ _
        rw [hdb, law.get_set, List.map_append]
        exact List.mem_append_right _ (by simp)
      · rw [processRows_failKeys cfg law rest (rowNum + 1) _,
          rowStep_failKeys cfg law rowNum r' st]
        exact hnf.1
    · exact ih (rowNum + 1) (rowStep cfg rowNum r st) hrest r' hr2

/-- Second-run analysis: when every row's key is already stored (and off the
lookup-failure list), the loop only counts skips: no error, no write, no
trace, the database untouched. -/
theorem processRows_all_skip {E : Type} (cfg : ImportConfig E)
    (rows : List (List String)) (rowNum : Nat) (st : ImportState)
    (h : ∀ r ∈ rows,
      ¬r.length < cfg.minCols ∧ cfg.recId (cfg.parse r) ≠ "" ∧
      cfg.recId (cfg.parse r) ∈ (cfg.getColl st.db).map cfg.recId ∧
      cfg.recId (cfg.parse r) ∉ st.db.lookupFailKeys) :
    processRows cfg rows rowNum st =
      { st with result :=
          { st.result with
            ProcessedRecords := st.result.ProcessedRecords + rows.length
            SkippedRecords := st.result.SkippedRecords + rows.length } } := by
  induction rows generalizing rowNum st with
  | nil => rfl
  | cons r rest ih =>
    obtain ⟨hlen, hid, hmem, hnf⟩ := h r (List.mem_cons_self r rest)
    have hstep := rowStep_existsFound cfg rowNum r st hlen hid
      (lookupBy_found_of_mem _ _ _ hnf hmem)
    simp only [processRows, List.length_cons]
    rw [hstep]
    rw [ih (rowNum + 1) _ (by
      intro r' hr'
      exact h r' (List.mem_cons_of_mem r hr'))]
    simp [ImportState.mk.injEq, UploadResult.mk.injEq]
    all_goals omega

/-- Idempotence of one counting importer: a first run that returned a nil
error and inserted every row makes a second run of the same rows over
the resulting database a pure skip run. -/
theorem runImport_idempotent {E : Type} (cfg : ImportConfig E) (law : CfgLawful cfg)
    (records : List (List String)) (db : DB)
    (hok : (runImport cfg (.ok records) db).2 = none)
    (hins : (runImport cfg (.ok records) db).1.result.InsertedRecords =
      (runImport cfg (.ok records) db).1.result.TotalRecords) :
    (runImport cfg (.ok records)
        ((runImport cfg (.ok records) db).1.db)).1.result.InsertedRecords = 0 ∧
    (runImport cfg (.ok records)
        ((runImport cfg (.ok records) db).1.db)).1.result.SkippedRecords =
      (runImport cfg (.ok records)
        ((runImport cfg (.ok records) db).1.db)).1.result.ProcessedRecords ∧
    (runImport cfg (.ok records)
        ((runImport cfg (.ok records) db).1.db)).1.db =
      (runImport cfg (.ok records) db).1.db ∧
    (runImport cfg (.ok records)
        ((runImport cfg (.ok records) db).1.db)).1.created = [] ∧
    (runImport cfg (.ok records)
        ((runImport cfg (.ok records) db).1.db)).2 = none := by
  by_cases hl : records.length < 2
  · rw [runImport_short cfg records db hl] at hok
    simp at hok
  · have hrun1 := runImport_ok cfg records db hl
    rw [hrun1] at hins
    have hc := processRows_counters cfg (records.drop 1) 2
      { result := { emptyResult with TotalRecords := records.length - 1 }
        db := db, created := [] }
    have hall : (processRows cfg (records.drop 1) 2
        { result := { emptyResult with TotalRecords := records.length - 1 }
          db := db, created := [] }).result.InsertedRecords =
        ({ result := { emptyResult with TotalRecords := records.length - 1 }
           db := db, created := [] } : ImportState).result.InsertedRecords +
          (records.drop 1).length := by
      simp only [emptyResult] at hc hins ⊢
      simp only [List.length_drop] at hc ⊢
      omega
    have hfacts := processRows_all_inserted cfg law (records.drop 1) 2
      { result := { emptyResult with TotalRecords := records.length - 1 }
        db := db, created := [] } hall
    rw [hrun1]
    rw [runImport_ok cfg records _ hl]
    rw [processRows_all_skip cfg (records.drop 1) 2
      { result := { emptyResult with TotalRecords := records.length - 1 }
        db := (processRows cfg (records.drop 1) 2
          { result := { emptyResult with TotalRecords := records.length - 1 }
            db := db, created := [] }).db
        created := [] } hfacts]
    exact ⟨rfl, rfl, rfl, rfl, rfl⟩

/-- C8: under the skip-if-exists counting importers, a file whose first run
returned a nil error and inserted all of its rows imports a second time
with zero inserts, `skipped_records = processed_records`, an empty
persistence trace, the stored records unchanged, and a nil error. -/
theorem C8_idempotence :
    (∀ (records : List (List String)) (db : DB),
      (ImportPatients (.ok records) db).2 = none →
      (ImportPatients (.ok records) db).1.result.InsertedRecords =
        (ImportPatients (.ok records) db).1.result.TotalRecords →
      (ImportPatients (.ok records)
          ((ImportPatients (.ok records) db).1.db)).1.result.InsertedRecords = 0 ∧
      (ImportPatients (.ok records)
          ((ImportPatients (.ok records) db).1.db)).1.result.SkippedRecords =
        (ImportPatients (.ok records)
          ((ImportPatients (.ok records) db).1.db)).1.result.ProcessedRecords ∧
      (ImportPatients (.ok records)
          ((ImportPatients (.ok records) db).1.db)).1.db =
        (ImportPatients (.ok records) db).1.db ∧
      (ImportPatients (.ok records)
          ((ImportPatients (.ok records) db).1.db)).1.created = [] ∧
      (ImportPatients (.ok records)
          ((ImportPatients (.ok records) db).1.db)).2 = none) ∧
    (∀ (records : List (List String)) (db : DB),
      (ImportAntibiotics (.ok records) db).2 = none →
      (ImportAntibiotics (.ok records) db).1.result.InsertedRecords =
        (ImportAntibiotics (.ok records) db).1.result.TotalRecords →
      (ImportAntibiotics (.ok records)
          ((ImportAntibiotics (.ok records) db).1.db)).1.result.InsertedRecords = 0 ∧
      (ImportAntibiotics (.ok records)
          ((ImportAntibiotics (.ok records) db).1.db)).1.result.SkippedRecords =
        (ImportAntibiotics (.ok records)
          ((ImportAntibiotics (.ok records) db).1.db)).1.result.ProcessedRecords ∧
      (ImportAntibiotics (.ok records)
          ((ImportAntibiotics (.ok records) db).1.db)).1.db =
        (ImportAntibiotics (.ok records) db).1.db ∧
      (ImportAntibiotics (.ok records)
          ((ImportAntibiotics (.ok records) db).1.db)).1.created = [] ∧
      (ImportAntibiotics (.ok records)
          ((ImportAntibiotics (.ok records) db).1.db)).2 = none) ∧
    (∀ (records : List (List String)) (db : DB),
      (ImportIndications (.ok records) db).2 = none →
      (ImportIndications (.ok records) db).1.result.InsertedRecords =
        (ImportIndications (.ok records) db).1.result.TotalRecords →
      (ImportIndications (.ok records)
          ((ImportIndications (.ok records) db).1.db)).1.result.InsertedRecords = 0 ∧
      (ImportIndications (.ok records)
          ((ImportIndications (.ok records) db).1.db)).1.result.SkippedRecords =
        (ImportIndications (.ok records)
          ((ImportIndications (.ok records) db).1.db)).1.result.ProcessedRecords ∧
      (ImportIndications (.ok records)
          ((ImportIndications (.ok records) db).1.db)).1.db =
        (ImportIndications (.ok records) db).1.db ∧
      (ImportIndications (.ok records)
          ((ImportIndications (.ok records) db).1.db)).1.created = [] ∧
      (ImportIndications (.ok records)
          ((ImportIndications (.ok records) db).1.db)).2 = none) ∧
    (∀ (records : List (List String)) (db : DB),
      (ImportOptionalVars (.ok records) db).2 = none →
      (ImportOptionalVars (.ok records) db).1.result.InsertedRecords =
        (ImportOptionalVars (.ok records) db).1.result.TotalRecords →
      (ImportOptionalVars (.ok records)
          ((ImportOptionalVars (.ok records) db).1.db)).1.result.InsertedRecords = 0 ∧
      (ImportOptionalVars (.ok records)
          ((ImportOptionalVars (.ok records) db).1.db)).1.result.SkippedRecords =
        (ImportOptionalVars (.ok records)
          ((ImportOptionalVars (.ok records) db).1.db)).1.result.ProcessedRecords ∧
      (ImportOptionalVars (.ok records)
          ((ImportOptionalVars (.ok records) db).1.db)).1.db =
        (ImportOptionalVars (.ok records) db).1.db ∧
      (ImportOptionalVars (.ok records)
          ((ImportOptionalVars (.ok records) db).1.db)).1.created = [] ∧
      (ImportOptionalVars (.ok records)
          ((ImportOptionalVars (.ok records) db).1.db)).2 = none) ∧
    (∀ (records : List (List String)) (db : DB),
      (ImportSpecimens (.ok records) db).2 = none →
      (ImportSpecimens (.ok records) db).1.result.InsertedRecords =
        (ImportSpecimens (.ok records) db).1.result.TotalRecords →
      (ImportSpecimens (.ok records)
          ((ImportSpecimens (.ok records) db).1.db)).1.result.InsertedRecords = 0 ∧
      (ImportSpecimens (.ok records)
          ((ImportSpecimens (.ok records) db).1.db)).1.result.SkippedRecords =
        (ImportSpecimens (.ok records)
          ((ImportSpecimens (.ok records) db).1.db)).1.result.ProcessedRecords ∧
      (ImportSpecimens (.ok records)
          ((ImportSpecimens (.ok records) db).1.db)).1.db =
        (ImportSpecimens (.ok records) db).1.db ∧
      (ImportSpecimens (.ok records)
          ((ImportSpecimens (.ok records) db).1.db)).1.created = [] ∧
      (ImportSpecimens (.ok records)
          ((ImportSpecimens (.ok records) db).1.db)).2 = none) := by
  refine ⟨?_, ?_, ?_, ?_, ?_⟩
  · exact fun records db h1 h2 =>
      runImport_idempotent patientCfg patientCfg_lawful records db h1 h2
  · exact fun records db h1 h2 =>
      runImport_idempotent antibioticCfg antibioticCfg_lawful records db h1 h2
  · exact fun records db h1 h2 =>
      runImport_idempotent indicationCfg indicationCfg_lawful records db h1 h2
  · exact fun records db h1 h2 =>
      runImport_idempotent optionalVarCfg optionalVarCfg_lawful records db h1 h2
  · exact fun records db h1 h2 =>
      runImport_idempotent specimenCfg specimenCfg_lawful records db h1 h2

/-- Witness for `C8_idempotence` at a concrete one-row specimen file. -/
theorem C8_witness :
    (ImportSpecimens (.ok [["h"], ["s", "c", "m", "a", "r", "", "k1"]])
        ((ImportSpecimens (.ok [["h"], ["s", "c", "m", "a", "r", "", "k1"]])
          {}).1.db)).1.result.InsertedRecords = 0 ∧
    (ImportSpecimens (.ok [["h"], ["s", "c", "m", "a", "r", "", "k1"]])
        ((ImportSpecimens (.ok [["h"], ["s", "c", "m", "a", "r", "", "k1"]])
          {}).1.db)).1.result.SkippedRecords =
      (ImportSpecimens (.ok [["h"], ["s", "c", "m", "a", "r", "", "k1"]])
        ((ImportSpecimens (.ok [["h"], ["s", "c", "m", "a", "r", "", "k1"]])
          {}).1.db)).1.result.ProcessedRecords ∧
    (ImportSpecimens (.ok [["h"], ["s", "c", "m", "a", "r", "", "k1"]])
        ((ImportSpecimens (.ok [["h"], ["s", "c", "m", "a", "r", "", "k1"]])
          {}).1.db)).1.db =
      (ImportSpecimens (.ok [["h"], ["s", "c", "m", "a", "r", "", "k1"]]) {}).1.db ∧
    (ImportSpecimens (.ok [["h"], ["s", "c", "m", "a", "r", "", "k1"]])
        ((ImportSpecimens (.ok [["h"], ["s", "c", "m", "a", "r", "", "k1"]])
          {}).1.db)).1.created = [] ∧
    (ImportSpecimens (.ok [["h"], ["s", "c", "m", "a", "r", "", "k1"]])
        ((ImportSpecimens (.ok [["h"], ["s", "c", "m", "a", "r", "", "k1"]])
          {}).1.db)).2 = none :=
  C8_idempotence.2.2.2.2 [["h"], ["s", "c", "m", "a", "r", "", "k1"]] {} rfl rfl

/-! ### Date format agreement (claim C3)

To speak about "the same instant written in two recognized formats" we give,
for each of the twelve layouts, its canonical zero-padded textual rendering
of a `RawDT`.  An instant "can be written" in a format when parsing the
rendering with that format's layout round-trips (`runToks f (render dt) =
some dt`): this encodes the format's representability constraints (no
fractional part in second-resolution layouts, midnight for date-only
layouts, and so on). -/

/-- Two-digit zero-padded decimal rendering. -/
def pad2 (n : Nat) : List Char := [Nat.digitChar (n / 10), Nat.digitChar (n % 10)]

/-- Four-digit zero-padded decimal rendering. -/
def pad4 (n : Nat) : List Char := pad2 (n / 100) ++ pad2 (n % 100)

/-- Three-digit zero-padded decimal rendering. -/
def pad3 (n : Nat) : List Char :=
  [Nat.digitChar (n / 100), Nat.digitChar (n / 10 % 10), Nat.digitChar (n % 10)]

/-- Six-digit zero-padded decimal rendering. -/
def pad6 (n : Nat) : List Char := pad3 (n / 1000) ++ pad3 (n % 1000)

/-- The common `yyyy-mm-dd` prefix of the dash-separated layouts. -/
def renderDash (dt : RawDT) (rest : List Char) : List Char :=
  pad4 dt.year ++ '-' :: (pad2 dt.month ++ '-' :: (pad2 dt.day ++ rest))

/-- The common `hh:mm:ss` fragment of the time-carrying layouts. -/
def renderTime (dt : RawDT) (rest : List Char) : List Char :=
  pad2 dt.hour ++ ':' :: (pad2 dt.minute ++ ':' :: (pad2 dt.second ++ rest))

/-- Rendering in `2006-01-02T15:04:05.000Z`. -/
def renderISOMilliZ (dt : RawDT) : List Char :=
  renderDash dt ('T' :: renderTime dt ('.' :: (pad3 (dt.nanos / 1000000) ++ ['Z'])))

/-- Rendering in `2006-01-02T15:04:05Z`. -/
def renderISOSecZ (dt : RawDT) : List Char :=
  renderDash dt ('T' :: renderTime dt ['Z'])

/-- Rendering in `2006-01-02T15:04:05`. -/
def renderISOSec (dt : RawDT) : List Char :=
  renderDash dt ('T' :: renderTime dt [])

/-- Rendering in `2006-01-02 15:04:05`. -/
def renderSpaceSec (dt : RawDT) : List Char :=
  renderDash dt (' ' :: renderTime dt [])

/-- Rendering in `2006-01-02`. -/
def renderDateOnly (dt : RawDT) : List Char := renderDash dt []

/-- Rendering in `01/02/2006` (US). -/
def renderUS (dt : RawDT) : List Char :=
  pad2 dt.month ++ '/' :: (pad2 dt.day ++ '/' :: pad4 dt.year)

/-- Rendering in `02/01/2006` (European). -/
def renderEU (dt : RawDT) : List Char :=
  pad2 dt.day ++ '/' :: (pad2 dt.month ++ '/' :: pad4 dt.year)

/-- Rendering in `2006/01/02`. -/
def renderYMDSlash (dt : RawDT) : List Char :=
  pad4 dt.year ++ '/' :: (pad2 dt.month ++ '/' :: pad2 dt.day)

/-- Rendering in `2006-01-02 15:04:05.000`. -/
def renderSpaceMilli (dt : RawDT) : List Char :=
  renderDash dt (' ' :: renderTime dt ('.' :: pad3 (dt.nanos / 1000000)))

/-- Rendering in `2006-01-02 15:04:05.000000`. -/
def renderSpaceMicro (dt : RawDT) : List Char :=
  renderDash dt (' ' :: renderTime dt ('.' :: pad6 (dt.nanos / 1000)))

/-- Rendering in `2006-01-02T15:04:05.000000Z`. -/
def renderISOMicroZ (dt : RawDT) : List Char :=
  renderDash dt ('T' :: renderTime dt ('.' :: (pad6 (dt.nanos / 1000) ++ ['Z'])))

/-- Rendering in `2006-01-02T15:04:05.000000`. -/
def renderISOMicro (dt : RawDT) : List Char :=
  renderDash dt ('T' :: renderTime dt ('.' :: pad6 (dt.nanos / 1000)))

/-- The twelve recognized format/rendering pairs for a given instant. -/
def goRenderings (dt : RawDT) : List (List DTok × List Char) :=
  [(fmtISOMilliZ, renderISOMilliZ dt), (fmtISOSecZ, renderISOSecZ dt),
   (fmtISOSec, renderISOSec dt), (fmtSpaceSec, renderSpaceSec dt),
   (fmtDateOnly, renderDateOnly dt), (fmtUS, renderUS dt),
   (fmtEU, renderEU dt), (fmtYMDSlash, renderYMDSlash dt),
   (fmtSpaceMilli, renderSpaceMilli dt), (fmtSpaceMicro, renderSpaceMicro dt),
   (fmtISOMicroZ, renderISOMicroZ dt), (fmtISOMicro, renderISOMicro dt)]

/-- A calendar instant in the ranges every recognized format can carry. -/
def validDT (dt : RawDT) : Prop :=
  1 ≤ dt.year ∧ dt.year ≤ 9999 ∧ 1 ≤ dt.month ∧ dt.month ≤ 12 ∧
  1 ≤ dt.day ∧ dt.day ≤ daysInMonth dt.year dt.month ∧
  dt.hour ≤ 23 ∧ dt.minute ≤ 59 ∧ dt.second ≤ 59 ∧ dt.nanos < 1000000000

/-! Digit-level lemmas. -/

theorem digitVal_digitChar (d : Nat) (h : d < 10) : digitVal (Nat.digitChar d) = some d := by
  interval_cases d <;> decide

theorem isDigitC_digitChar (d : Nat) (h : d < 10) : isDigitC (Nat.digitChar d) = true := by
  simp [isDigitC, digitVal_digitChar d h]

theorem digitChar_ne_of_not_digit (d : Nat) (hd : d < 10) (c : Char)
    (hc : isDigitC c = false) : Nat.digitChar d ≠ c := by
  intro he
  have hdig := isDigitC_digitChar d hd
  rw [he, hc] at hdig
  exact Bool.noConfusion hdig

theorem parseNum2_pad2 (n : Nat) (h : n < 100) (rest : List Char) :
    parseNum2 (pad2 n ++ rest) = some (n, rest) := by
  have h1 : n / 10 < 10 := by omega
  have h2 : n % 10 < 10 := by omega
  simp [pad2, parseNum2, digitVal_digitChar _ h1, digitVal_digitChar _ h2]
  omega

theorem parseNum4_pad4 (n : Nat) (h : n < 10000) (rest : List Char) :
    parseNum4 (pad4 n ++ rest) = some (n, rest) := by
  have h1 : n / 100 / 10 < 10 := by omega
  have h2 : n / 100 % 10 < 10 := by omega
  have h3 : n % 100 / 10 < 10 := by omega
  have h4 : n % 100 % 10 < 10 := by omega
  simp [pad4, pad2, parseNum4, digitVal_digitChar _ h1, digitVal_digitChar _ h2,
    digitVal_digitChar _ h3, digitVal_digitChar _ h4]
  omega

theorem parseHourNum_pad2 (n : Nat) (h : n < 100) (rest : List Char) :
    parseHourNum (pad2 n ++ rest) = some (n, rest) := by
  have h1 : n / 10 < 10 := by omega
  have h2 : n % 10 < 10 := by omega
  simp [pad2, parseHourNum, digitVal_digitChar _ h1, digitVal_digitChar _ h2]
  omega

theorem parseFracDigits_pad3 (v : Nat) (h : v < 1000) (rest : List Char) :
    parseFracDigits 3 (pad3 v ++ rest) = some (v, rest) := by
  have h1 : v / 100 < 10 := by omega
  have h2 : v / 10 % 10 < 10 := by omega
  have h3 : v % 10 < 10 := by omega
  simp [pad3, parseFracDigits, digitVal_digitChar _ h1, digitVal_digitChar _ h2,
    digitVal_digitChar _ h3]
  omega

theorem parseFracDigits_pad6 (v : Nat) (h : v < 1000000) (rest : List Char) :
    parseFracDigits 6 (pad6 v ++ rest) = some (v, rest) := by
  have h1 : v / 1000 / 100 < 10 := by omega
  have h2 : v / 1000 / 10 % 10 < 10 := by omega
  have h3 : v / 1000 % 10 < 10 := by omega
  have h4 : v % 1000 / 100 < 10 := by omega
  have h5 : v % 1000 / 10 % 10 < 10 := by omega
  have h6 : v % 1000 % 10 < 10 := by omega
  simp [pad6, pad3, parseFracDigits, digitVal_digitChar _ h1, digitVal_digitChar _ h2,
    digitVal_digitChar _ h3, digitVal_digitChar _ h4, digitVal_digitChar _ h5,
    digitVal_digitChar _ h6]
  omega

/-! Single-token evaluation lemmas for `runToksAux`. -/

theorem runToksAux_year4_ok (n : Nat) (h : n < 10000) (ts : List DTok)
    (rest : List Char) (acc : RawDT) :
    runToksAux (.year4 :: ts) (pad4 n ++ rest) acc =
      runToksAux ts rest { acc with year := n } := by
  simp [runToksAux, parseNum4_pad4 n h rest]

theorem runToksAux_month2_ok (n : Nat) (h : n < 100) (ts : List DTok)
    (rest : List Char) (acc : RawDT) :
    runToksAux (.month2 :: ts) (pad2 n ++ rest) acc =
      runToksAux ts rest { acc with month := n } := by
  simp [runToksAux, parseNum2_pad2 n h rest]

theorem runToksAux_day2_ok (n : Nat) (h : n < 100) (ts : List DTok)
    (rest : List Char) (acc : RawDT) :
    runToksAux (.day2 :: ts) (pad2 n ++ rest) acc =
      runToksAux ts rest { acc with day := n } := by
  simp [runToksAux, parseNum2_pad2 n h rest]

theorem runToksAux_hour_ok (n : Nat) (h : n < 100) (ts : List DTok)
    (rest : List Char) (acc : RawDT) :
    runToksAux (.hourNum :: ts) (pad2 n ++ rest) acc =
      runToksAux ts rest { acc with hour := n } := by
  simp [runToksAux, parseHourNum_pad2 n h rest]

theorem runToksAux_minute_ok (n : Nat) (h : n < 100) (ts : List DTok)
    (rest : List Char) (acc : RawDT) :
    runToksAux (.minute2 :: ts) (pad2 n ++ rest) acc =
      runToksAux ts rest { acc with minute := n } := by
  simp [runToksAux, parseNum2_pad2 n h rest]

theorem runToksAux_second_ok (n : Nat) (h : n < 100) (ts : List DTok)
    (rest : List Char) (acc : RawDT) :
    runToksAux (.second2 :: ts) (pad2 n ++ rest) acc =
      runToksAux ts rest { acc with second := n } := by
  simp [runToksAux, parseNum2_pad2 n h rest]

theorem runToksAux_lit_ok (c : Char) (ts : List DTok) (rest : List Char) (acc : RawDT) :
    runToksAux (.lit c :: ts) (c :: rest) acc = runToksAux ts rest acc := by
  simp [runToksAux]

theorem runToksAux_lit_ne (c c2 : Char) (ts : List DTok) (rest : List Char)
    (acc : RawDT) (h : c2 ≠ c) :
    runToksAux (.lit c :: ts) (c2 :: rest) acc = none := by
  simp [runToksAux, h]

theorem runToksAux_lit_nil (c : Char) (ts : List DTok) (acc : RawDT) :
    runToksAux (.lit c :: ts) [] acc = none := by
  simp [runToksAux]

theorem runToksAux_nil_cons (c : Char) (l : List Char) (acc : RawDT) :
    runToksAux [] (c :: l) acc = none := by
  simp [runToksAux]

theorem runToksAux_nil_nil (acc : RawDT) : runToksAux [] [] acc = some acc := by
  simp [runToksAux]

theorem runToksAux_frac_skip (n : Nat) (ts : List DTok) (input : List Char)
    (acc : RawDT) (h : input.length < n + 1) :
    runToksAux (.frac n :: ts) input acc = runToksAux ts input acc := by
  simp only [runToksAux]
  rw [if_neg (by omega)]

theorem runToksAux_frac3_ok (v : Nat) (h : v < 1000) (ts : List DTok)
    (rest : List Char) (acc : RawDT) :
    runToksAux (.frac 3 :: ts) ('.' :: (pad3 v ++ rest)) acc =
      runToksAux ts rest { acc with nanos := v * 10 ^ 6 } := by
  simp only [runToksAux]
  rw [if_pos (by simp [pad3])]
  simp [parseFracDigits_pad3 v h rest]

theorem runToksAux_frac6_ok (v : Nat) (h : v < 1000000) (ts : List DTok)
    (rest : List Char) (acc : RawDT) :
    runToksAux (.frac 6 :: ts) ('.' :: (pad6 v ++ rest)) acc =
      runToksAux ts rest { acc with nanos := v * 10 ^ 3 } := by
  simp only [runToksAux]
  rw [if_pos (by simp [pad6, pad3])]
  simp [parseFracDigits_pad6 v h rest]

theorem runToksAux_frac3_on_pad6 (v : Nat) (h : v < 1000000) (ts : List DTok)
    (rest : List Char) (acc : RawDT) :
    runToksAux (.frac 3 :: ts) ('.' :: (pad6 v ++ rest)) acc =
      runToksAux ts (pad3 (v % 1000) ++ rest) { acc with nanos := (v / 1000) * 10 ^ 6 } := by
  simp only [runToksAux]
  rw [if_pos (by simp [pad6, pad3])]
  have hsplit : pad6 v ++ rest = pad3 (v / 1000) ++ (pad3 (v % 1000) ++ rest) := by
    simp [pad6, List.append_assoc]
  rw [hsplit]
  simp [parseFracDigits_pad3 (v / 1000) (by omega) _]

theorem runToksAux_year4_fail (a : Nat) (h : a < 100) (ts : List DTok)
    (l : List Char) (acc : RawDT) :
    runToksAux (.year4 :: ts) (pad2 a ++ ('/' :: l)) acc = none := by
  have h1 : a / 10 < 10 := by omega
  have h2 : a % 10 < 10 := by omega
  cases l with
  | nil => simp [pad2, runToksAux, parseNum4]
  | cons c4 l2 =>
    simp [pad2, runToksAux, parseNum4, digitVal_digitChar _ h1, digitVal_digitChar _ h2,
      show digitVal '/' = none from rfl]

/-! Composite prefix lemmas. -/

theorem runToksAux_dash (dt : RawDT) (hy : dt.year < 10000) (hm : dt.month < 100)
    (hd : dt.day < 100) (ts : List DTok) (rest : List Char) (acc : RawDT) :
    runToksAux (.year4 :: .lit '-' :: .month2 :: .lit '-' :: .day2 :: ts)
      (renderDash dt rest) acc =
      runToksAux ts rest { acc with year := dt.year, month := dt.month, day := dt.day } := by
  unfold renderDash
  rw [runToksAux_year4_ok dt.year hy, runToksAux_lit_ok,
    runToksAux_month2_ok dt.month hm, runToksAux_lit_ok, runToksAux_day2_ok dt.day hd]

theorem runToksAux_time (dt : RawDT) (hh : dt.hour < 100) (hmi : dt.minute < 100)
    (hs : dt.second < 100) (ts : List DTok) (rest : List Char) (acc : RawDT) :
    runToksAux (.hourNum :: .lit ':' :: .minute2 :: .lit ':' :: .second2 :: ts)
      (renderTime dt rest) acc =
      runToksAux ts rest
        { acc with hour := dt.hour, minute := dt.minute, second := dt.second } := by
  unfold renderTime
  rw [runToksAux_hour_ok dt.hour hh, runToksAux_lit_ok,
    runToksAux_minute_ok dt.minute hmi, runToksAux_lit_ok, runToksAux_second_ok dt.second hs]

/-- A slash-date layout beginning with a two-digit month dies on a four-digit
year prefix: the slash literal meets a digit. -/
theorem runToksAux_month2_on_pad4 (y : Nat) (h : y < 10000) (ts : List DTok)
    (l : List Char) (acc : RawDT) :
    runToksAux (.month2 :: .lit '/' :: ts) (pad4 y ++ l) acc = none := by
  have hsplit : pad4 y ++ l = pad2 (y / 100) ++ (pad2 (y % 100) ++ l) := by
    simp [pad4, List.append_assoc]
  rw [hsplit, runToksAux_month2_ok (y / 100) (by omega)]
  unfold pad2
  exact runToksAux_lit_ne _ _ _ _ _
    (digitChar_ne_of_not_digit _ (by omega) _ (by decide))

/-- Same for the European layout beginning with a two-digit day. -/
theorem runToksAux_day2_on_pad4 (y : Nat) (h : y < 10000) (ts : List DTok)
    (l : List Char) (acc : RawDT) :
    runToksAux (.day2 :: .lit '/' :: ts) (pad4 y ++ l) acc = none := by
  have hsplit : pad4 y ++ l = pad2 (y / 100) ++ (pad2 (y % 100) ++ l) := by
    simp [pad4, List.append_assoc]
  rw [hsplit, runToksAux_day2_ok (y / 100) (by omega)]
  unfold pad2
  exact runToksAux_lit_ne _ _ _ _ _
    (digitChar_ne_of_not_digit _ (by omega) _ (by decide))

/-! `runToks` wrappers and the range check. -/

theorem runToks_eq_none (f : List DTok) (s : List Char)
    (h : runToksAux f s {} = none) : runToks f s = none := by
  simp [runToks, h]

theorem runToks_eq_some (f : List DTok) (s : List Char) (a : RawDT)
    (h : runToksAux f s {} = some a) (hv : validRanges a = true) :
    runToks f s = some a := by
  simp [runToks, h, hv]

theorem runToks_eq_none_of_range (f : List DTok) (s : List Char) (a : RawDT)
    (h : runToksAux f s {} = some a) (hv : validRanges a = false) :
    runToks f s = none := by
  simp [runToks, h, hv]

theorem daysInMonth_le_31 (y m : Nat) : daysInMonth y m ≤ 31 := by
  unfold daysInMonth
  split_ifs <;> omega

theorem daysInMonth_ge_28 (y m : Nat) : 28 ≤ daysInMonth y m := by
  unfold daysInMonth
  split_ifs <;> omega

theorem validRanges_true (a : RawDT) (h1 : 1 ≤ a.month) (h2 : a.month ≤ 12)
    (h3 : 1 ≤ a.day) (h4 : a.day ≤ daysInMonth a.year a.month) (h5 : a.hour ≤ 23)
    (h6 : a.minute ≤ 59) (h7 : a.second ≤ 59) : validRanges a = true := by
  simp [validRanges]
  exact ⟨h1, h2, h3, h4, h5, h6, h7⟩

theorem firstMatch_cons_none (f : List DTok) (fs : List (List DTok)) (s : List Char)
    (h : runToks f s = none) : firstMatch (f :: fs) s = firstMatch fs s := by
  simp [firstMatch, h]

theorem firstMatch_cons_some (f : List DTok) (fs : List (List DTok)) (s : List Char)
    (a : RawDT) (h : runToks f s = some a) : firstMatch (f :: fs) s = some a := by
  simp [firstMatch, h]

/-! Last-token variants (input ends exactly at the token). -/

theorem runToksAux_year4_last (n : Nat) (h : n < 10000) (ts : List DTok) (acc : RawDT) :
    runToksAux (.year4 :: ts) (pad4 n) acc = runToksAux ts [] { acc with year := n } := by
  rw [show pad4 n = pad4 n ++ [] by simp]
  rw [runToksAux_year4_ok n h]

theorem runToksAux_day2_last (n : Nat) (h : n < 100) (ts : List DTok) (acc : RawDT) :
    runToksAux (.day2 :: ts) (pad2 n) acc = runToksAux ts [] { acc with day := n } := by
  rw [show pad2 n = pad2 n ++ [] by simp]
  rw [runToksAux_day2_ok n h]

theorem runToksAux_frac3_last (v : Nat) (h : v < 1000) (ts : List DTok) (acc : RawDT) :
    runToksAux (.frac 3 :: ts) ('.' :: pad3 v) acc =
      runToksAux ts [] { acc with nanos := v * 10 ^ 6 } := by
  rw [show ('.' :: pad3 v) = '.' :: (pad3 v ++ []) by simp]
  rw [runToksAux_frac3_ok v h]

theorem runToksAux_frac6_last (v : Nat) (h : v < 1000000) (ts : List DTok) (acc : RawDT) :
    runToksAux (.frac 6 :: ts) ('.' :: pad6 v) acc =
      runToksAux ts [] { acc with nanos := v * 10 ^ 3 } := by
  rw [show ('.' :: pad6 v) = '.' :: (pad6 v ++ []) by simp]
  rw [runToksAux_frac6_ok v h]

theorem runToksAux_frac3_on_pad6_last (v : Nat) (h : v < 1000000) (ts : List DTok)
    (acc : RawDT) :
    runToksAux (.frac 3 :: ts) ('.' :: pad6 v) acc =
      runToksAux ts (pad3 (v % 1000)) { acc with nanos := (v / 1000) * 10 ^ 6 } := by
  rw [show ('.' :: pad6 v) = '.' :: (pad6 v ++ []) by simp]
  rw [runToksAux_frac3_on_pad6 v h]
  rw [show pad3 (v % 1000) ++ ([] : List Char) = pad3 (v % 1000) by simp]

/-! Shared facts. -/

theorem validDT_bounds (dt : RawDT) (hv : validDT dt) :
    dt.year < 10000 ∧ dt.month < 100 ∧ dt.day < 100 ∧ dt.hour < 100 ∧
    dt.minute < 100 ∧ dt.second < 100 ∧ dt.nanos / 1000000 < 1000 ∧
    dt.nanos / 1000 < 1000000 := by
  obtain ⟨hy1, hy2, hm1, hm2, hd1, hd2, hh, hmi, hs, hn⟩ := hv
  have h31 := daysInMonth_le_31 dt.year dt.month
  exact ⟨by omega, by omega, by omega, by omega, by omega, by omega, by omega, by omega⟩

theorem validRanges_false_month (a : RawDT) (h : 12 < a.month) :
    validRanges a = false := by
  simp [validRanges]
  omega

theorem renderDash_ne_nil (dt : RawDT) (rest : List Char) : renderDash dt rest ≠ [] := by
  simp [renderDash, pad4, pad2]

theorem renderUS_ne_nil (dt : RawDT) : renderUS dt ≠ [] := by
  simp [renderUS, pad2]

theorem renderEU_ne_nil (dt : RawDT) : renderEU dt ≠ [] := by
  simp [renderEU, pad2]

theorem renderYMDSlash_ne_nil (dt : RawDT) : renderYMDSlash dt ≠ [] := by
  simp [renderYMDSlash, pad4, pad2]

/-! `parseDate` on each recognized rendering.  Each lemma shows that the
first layout in the trial order that matches the rendering yields the
rendered instant itself. -/

theorem parseDateL_renderISOMilliZ (dt : RawDT)
    (hrep : runToks fmtISOMilliZ (renderISOMilliZ dt) = some dt) :
    parseDateL (renderISOMilliZ dt) = dt := by
  unfold parseDateL
  rw [if_neg (by simp [renderISOMilliZ]; exact renderDash_ne_nil dt _)]
  simp only [goDateFormats]
  rw [firstMatch_cons_some _ _ _ _ hrep]
  rfl

theorem parseDateL_renderISOSecZ (dt : RawDT) (hv : validDT dt)
    (hrep : runToks fmtISOSecZ (renderISOSecZ dt) = some dt) :
    parseDateL (renderISOSecZ dt) = dt := by
  obtain ⟨hy, hm, hd, hh, hmi, hs, hms, hus⟩ := validDT_bounds dt hv
  obtain ⟨_, _, hm1, hm2, hd1, hd2, hh23, hmi59, hs59, _⟩ := hv
  have haux : runToksAux fmtISOSecZ (renderISOSecZ dt) {} =
      some ⟨dt.year, dt.month, dt.day, dt.hour, dt.minute, dt.second, 0⟩ := by
    simp only [fmtISOSecZ, renderISOSecZ]
    rw [runToksAux_dash dt hy hm hd, runToksAux_lit_ok, runToksAux_time dt hh hmi hs,
      runToksAux_lit_ok, runToksAux_nil_nil]
  have hdt : (⟨dt.year, dt.month, dt.day, dt.hour, dt.minute, dt.second, 0⟩ : RawDT) = dt := by
    have hbase : runToks fmtISOSecZ (renderISOSecZ dt) =
        some ⟨dt.year, dt.month, dt.day, dt.hour, dt.minute, dt.second, 0⟩ :=
      runToks_eq_some _ _ _ haux (validRanges_true _ hm1 hm2 hd1 hd2 hh23 hmi59 hs59)
    rw [hbase] at hrep
    exact Option.some.inj hrep
  have h0 : runToks fmtISOMilliZ (renderISOSecZ dt) = some dt := by
    apply runToks_eq_some _ _ dt
    · simp only [fmtISOMilliZ, renderISOSecZ]
      rw [runToksAux_dash dt hy hm hd, runToksAux_lit_ok, runToksAux_time dt hh hmi hs]
      rw [runToksAux_frac_skip 3 _ _ _ (by decide), runToksAux_lit_ok, runToksAux_nil_nil]
      rw [hdt]
    · rw [← hdt]
      exact validRanges_true _ hm1 hm2 hd1 hd2 hh23 hmi59 hs59
  unfold parseDateL
  rw [if_neg (by simp [renderISOSecZ]; exact renderDash_ne_nil dt _)]
  simp only [goDateFormats]
  rw [firstMatch_cons_some _ _ _ _ h0]
  rfl

theorem parseDateL_renderISOSec (dt : RawDT) (hv : validDT dt)
    (hrep : runToks fmtISOSec (renderISOSec dt) = some dt) :
    parseDateL (renderISOSec dt) = dt := by
  obtain ⟨hy, hm, hd, hh, hmi, hs, hms, hus⟩ := validDT_bounds dt hv
  have h0 : runToks fmtISOMilliZ (renderISOSec dt) = none := by
    apply runToks_eq_none
    simp only [fmtISOMilliZ, renderISOSec]
    rw [runToksAux_dash dt hy hm hd, runToksAux_lit_ok, runToksAux_time dt hh hmi hs]
    rw [runToksAux_frac_skip 3 _ _ _ (by decide)]
    exact runToksAux_lit_nil _ _ _
  have h1 : runToks fmtISOSecZ (renderISOSec dt) = none := by
    apply runToks_eq_none
    simp only [fmtISOSecZ, renderISOSec]
    rw [runToksAux_dash dt hy hm hd, runToksAux_lit_ok, runToksAux_time dt hh hmi hs]
    exact runToksAux_lit_nil _ _ _
  unfold parseDateL
  rw [if_neg (by simp [renderISOSec]; exact renderDash_ne_nil dt _)]
  simp only [goDateFormats]
  rw [firstMatch_cons_none _ _ _ h0, firstMatch_cons_none _ _ _ h1,
    firstMatch_cons_some _ _ _ _ hrep]
  rfl

theorem parseDateL_renderSpaceSec (dt : RawDT) (hv : validDT dt)
    (hrep : runToks fmtSpaceSec (renderSpaceSec dt) = some dt) :
    parseDateL (renderSpaceSec dt) = dt := by
  obtain ⟨hy, hm, hd, hh, hmi, hs, hms, hus⟩ := validDT_bounds dt hv
  have h0 : runToks fmtISOMilliZ (renderSpaceSec dt) = none := by
    apply runToks_eq_none
    simp only [fmtISOMilliZ, renderSpaceSec]
    rw [runToksAux_dash dt hy hm hd]
    exact runToksAux_lit_ne _ _ _ _ _ (by decide)
  have h1 : runToks fmtISOSecZ (renderSpaceSec dt) = none := by
    apply runToks_eq_none
    simp only [fmtISOSecZ, renderSpaceSec]
    rw [runToksAux_dash dt hy hm hd]
    exact runToksAux_lit_ne _ _ _ _ _ (by decide)
  have h2 : runToks fmtISOSec (renderSpaceSec dt) = none := by
    apply runToks_eq_none
    simp only [fmtISOSec, renderSpaceSec]
    rw [runToksAux_dash dt hy hm hd]
    exact runToksAux_lit_ne _ _ _ _ _ (by decide)
  unfold parseDateL
  rw [if_neg (by simp [renderSpaceSec]; exact renderDash_ne_nil dt _)]
  simp only [goDateFormats]
  rw [firstMatch_cons_none _ _ _ h0, firstMatch_cons_none _ _ _ h1,
    firstMatch_cons_none _ _ _ h2, firstMatch_cons_some _ _ _ _ hrep]
  rfl

theorem parseDateL_renderDateOnly (dt : RawDT) (hv : validDT dt)
    (hrep : runToks fmtDateOnly (renderDateOnly dt) = some dt) :
    parseDateL (renderDateOnly dt) = dt := by
  obtain ⟨hy, hm, hd, hh, hmi, hs, hms, hus⟩ := validDT_bounds dt hv
  have h0 : runToks fmtISOMilliZ (renderDateOnly dt) = none := by
    apply runToks_eq_none
    simp only [fmtISOMilliZ, renderDateOnly]
    rw [runToksAux_dash dt hy hm hd]
    exact runToksAux_lit_nil _ _ _
  have h1 : runToks fmtISOSecZ (renderDateOnly dt) = none := by
    apply runToks_eq_none
    simp only [fmtISOSecZ, renderDateOnly]
    rw [runToksAux_dash dt hy hm hd]
    exact runToksAux_lit_nil _ _ _
  have h2 : runToks fmtISOSec (renderDateOnly dt) = none := by
    apply runToks_eq_none
    simp only [fmtISOSec, renderDateOnly]
    rw [runToksAux_dash dt hy hm hd]
    exact runToksAux_lit_nil _ _ _
  have h3 : runToks fmtSpaceSec (renderDateOnly dt) = none := by
    apply runToks_eq_none
    simp only [fmtSpaceSec, renderDateOnly]
    rw [runToksAux_dash dt hy hm hd]
    exact runToksAux_lit_nil _ _ _
  unfold parseDateL
  rw [if_neg (by simp [renderDateOnly]; exact renderDash_ne_nil dt _)]
  simp only [goDateFormats]
  rw [firstMatch_cons_none _ _ _ h0, firstMatch_cons_none _ _ _ h1,
    firstMatch_cons_none _ _ _ h2, firstMatch_cons_none _ _ _ h3,
    firstMatch_cons_some _ _ _ _ hrep]
  rfl

theorem parseDateL_renderUS (dt : RawDT) (hv : validDT dt)
    (hrep : runToks fmtUS (renderUS dt) = some dt) :
    parseDateL (renderUS dt) = dt := by
  obtain ⟨hy, hm, hd, hh, hmi, hs, hms, hus⟩ := validDT_bounds dt hv
  have h0 : runToks fmtISOMilliZ (renderUS dt) = none := by
    apply runToks_eq_none
    simp only [fmtISOMilliZ, renderUS]
    exact runToksAux_year4_fail dt.month hm _ _ _
  have h1 : runToks fmtISOSecZ (renderUS dt) = none := by
    apply runToks_eq_none
    simp only [fmtISOSecZ, renderUS]
    exact runToksAux_year4_fail dt.month hm _ _ _
  have h2 : runToks fmtISOSec (renderUS dt) = none := by
    apply runToks_eq_none
    simp only [fmtISOSec, renderUS]
    exact runToksAux_year4_fail dt.month hm _ _ _
  have h3 : runToks fmtSpaceSec (renderUS dt) = none := by
    apply runToks_eq_none
    simp only [fmtSpaceSec, renderUS]
    exact runToksAux_year4_fail dt.month hm _ _ _
  have h4 : runToks fmtDateOnly (renderUS dt) = none := by
    apply runToks_eq_none
    simp only [fmtDateOnly, renderUS]
    exact runToksAux_year4_fail dt.month hm _ _ _
  unfold parseDateL
  rw [if_neg (renderUS_ne_nil dt)]
  simp only [goDateFormats]
  rw [firstMatch_cons_none _ _ _ h0, firstMatch_cons_none _ _ _ h1,
    firstMatch_cons_none _ _ _ h2, firstMatch_cons_none _ _ _ h3,
    firstMatch_cons_none _ _ _ h4, firstMatch_cons_some _ _ _ _ hrep]
  rfl

theorem parseDateL_renderEU (dt : RawDT) (hv : validDT dt)
    (hrep : runToks fmtEU (renderEU dt) = some dt)
    (heu : 13 ≤ dt.day ∨ dt.day = dt.month) :
    parseDateL (renderEU dt) = dt := by
  obtain ⟨hy, hm, hd, hh, hmi, hs, hms, hus⟩ := validDT_bounds dt hv
  obtain ⟨_, _, hm1, hm2, hd1, hd2, _, _, _, _⟩ := hv
  have h0 : runToks fmtISOMilliZ (renderEU dt) = none := by
    apply runToks_eq_none
    simp only [fmtISOMilliZ, renderEU]
    exact runToksAux_year4_fail dt.day hd _ _ _
  have h1 : runToks fmtISOSecZ (renderEU dt) = none := by
    apply runToks_eq_none
    simp only [fmtISOSecZ, renderEU]
    exact runToksAux_year4_fail dt.day hd _ _ _
  have h2 : runToks fmtISOSec (renderEU dt) = none := by
    apply runToks_eq_none
    simp only [fmtISOSec, renderEU]
    exact runToksAux_year4_fail dt.day hd _ _ _
  have h3 : runToks fmtSpaceSec (renderEU dt) = none := by
    apply runToks_eq_none
    simp only [fmtSpaceSec, renderEU]
    exact runToksAux_year4_fail dt.day hd _ _ _
  have h4 : runToks fmtDateOnly (renderEU dt) = none := by
    apply runToks_eq_none
    simp only [fmtDateOnly, renderEU]
    exact runToksAux_year4_fail dt.day hd _ _ _
  have hauxEU : runToksAux fmtEU (renderEU dt) {} =
      some ⟨dt.year, dt.month, dt.day, 0, 0, 0, 0⟩ := by
    simp only [fmtEU, renderEU]
    rw [runToksAux_day2_ok dt.day hd, runToksAux_lit_ok, runToksAux_month2_ok dt.month hm,
      runToksAux_lit_ok, runToksAux_year4_last dt.year hy, runToksAux_nil_nil]
  have hdt : (⟨dt.year, dt.month, dt.day, 0, 0, 0, 0⟩ : RawDT) = dt := by
    have hbase := runToks_eq_some _ _ _ hauxEU
      (validRanges_true _ hm1 hm2 hd1 hd2 (Nat.zero_le _) (Nat.zero_le _) (Nat.zero_le _))
    rw [hbase] at hrep
    exact Option.some.inj hrep
  have hauxUS : runToksAux fmtUS (renderEU dt) {} =
      some ⟨dt.year, dt.day, dt.month, 0, 0, 0, 0⟩ := by
    simp only [fmtUS, renderEU]
    rw [runToksAux_month2_ok dt.day hd, runToksAux_lit_ok, runToksAux_day2_ok dt.month hm,
      runToksAux_lit_ok, runToksAux_year4_last dt.year hy, runToksAux_nil_nil]
  rcases heu with h13 | hdm
  · have hUSnone : runToks fmtUS (renderEU dt) = none :=
      runToks_eq_none_of_range _ _ _ hauxUS (validRanges_false_month _ (by simp; omega))
    unfold parseDateL
    rw [if_neg (renderEU_ne_nil dt)]
    simp only [goDateFormats]
    rw [firstMatch_cons_none _ _ _ h0, firstMatch_cons_none _ _ _ h1,
      firstMatch_cons_none _ _ _ h2, firstMatch_cons_none _ _ _ h3,
      firstMatch_cons_none _ _ _ h4, firstMatch_cons_none _ _ _ hUSnone,
      firstMatch_cons_some _ _ _ _ hrep]
    rfl
  · have hUSsome : runToks fmtUS (renderEU dt) = some dt := by
      apply runToks_eq_some _ _ dt
      · rw [hauxUS]
        rw [← hdt]
        rw [hdm]
      · rw [← hdt]
        exact validRanges_true _ hm1 hm2 hd1 hd2 (Nat.zero_le _) (Nat.zero_le _) (Nat.zero_le _)
    unfold parseDateL
    rw [if_neg (renderEU_ne_nil dt)]
    simp only [goDateFormats]
    rw [firstMatch_cons_none _ _ _ h0, firstMatch_cons_none _ _ _ h1,
      firstMatch_cons_none _ _ _ h2, firstMatch_cons_none _ _ _ h3,
      firstMatch_cons_none _ _ _ h4, firstMatch_cons_some _ _ _ _ hUSsome]
    rfl

theorem parseDateL_renderYMDSlash (dt : RawDT) (hv : validDT dt)
    (hrep : runToks fmtYMDSlash (renderYMDSlash dt) = some dt) :
    parseDateL (renderYMDSlash dt) = dt := by
  obtain ⟨hy, hm, hd, hh, hmi, hs, hms, hus⟩ := validDT_bounds dt hv
  have h0 : runToks fmtISOMilliZ (renderYMDSlash dt) = none := by
    apply runToks_eq_none
    simp only [fmtISOMilliZ, renderYMDSlash]
    rw [runToksAux_year4_ok dt.year hy]
    exact runToksAux_lit_ne _ _ _ _ _ (by decide)
  have h1 : runToks fmtISOSecZ (renderYMDSlash dt) = none := by
    apply runToks_eq_none
    simp only [fmtISOSecZ, renderYMDSlash]
    rw [runToksAux_year4_ok dt.year hy]
    exact runToksAux_lit_ne _ _ _ _ _ (by decide)
  have h2 : runToks fmtISOSec (renderYMDSlash dt) = none := by
    apply runToks_eq_none
    simp only [fmtISOSec, renderYMDSlash]
    rw [runToksAux_year4_ok dt.year hy]
    exact runToksAux_lit_ne _ _ _ _ _ (by decide)
  have h3 : runToks fmtSpaceSec (renderYMDSlash dt) = none := by
    apply runToks_eq_none
    simp only [fmtSpaceSec, renderYMDSlash]
    rw [runToksAux_year4_ok dt.year hy]
    exact runToksAux_lit_ne _ _ _ _ _ (by decide)
  have h4 : runToks fmtDateOnly (renderYMDSlash dt) = none := by
    apply runToks_eq_none
    simp only [fmtDateOnly, renderYMDSlash]
    rw [runToksAux_year4_ok dt.year hy]
    exact runToksAux_lit_ne _ _ _ _ _ (by decide)
  have h5 : runToks fmtUS (renderYMDSlash dt) = none := by
    apply runToks_eq_none
    simp only [fmtUS, renderYMDSlash]
    exact runToksAux_month2_on_pad4 dt.year hy _ _ _
  have h6 : runToks fmtEU (renderYMDSlash dt) = none := by
    apply runToks_eq_none
    simp only [fmtEU, renderYMDSlash]
    exact runToksAux_day2_on_pad4 dt.year hy _ _ _
  unfold parseDateL
  rw [if_neg (renderYMDSlash_ne_nil dt)]
  simp only [goDateFormats]
  rw [firstMatch_cons_none _ _ _ h0, firstMatch_cons_none _ _ _ h1,
    firstMatch_cons_none _ _ _ h2, firstMatch_cons_none _ _ _ h3,
    firstMatch_cons_none _ _ _ h4, firstMatch_cons_none _ _ _ h5,
    firstMatch_cons_none _ _ _ h6, firstMatch_cons_some _ _ _ _ hrep]
  rfl

theorem parseDateL_renderSpaceMilli (dt : RawDT) (hv : validDT dt)
    (hrep : runToks fmtSpaceMilli (renderSpaceMilli dt) = some dt) :
    parseDateL (renderSpaceMilli dt) = dt := by
  obtain ⟨hy, hm, hd, hh, hmi, hs, hms, hus⟩ := validDT_bounds dt hv
  have h0 : runToks fmtISOMilliZ (renderSpaceMilli dt) = none := by
    apply runToks_eq_none
    simp only [fmtISOMilliZ, renderSpaceMilli]
    rw [runToksAux_dash dt hy hm hd]
    exact runToksAux_lit_ne _ _ _ _ _ (by decide)
  have h1 : runToks fmtISOSecZ (renderSpaceMilli dt) = none := by
    apply runToks_eq_none
    simp only [fmtISOSecZ, renderSpaceMilli]
    rw [runToksAux_dash dt hy hm hd]
    exact runToksAux_lit_ne _ _ _ _ _ (by decide)
  have h2 : runToks fmtISOSec (renderSpaceMilli dt) = none := by
    apply runToks_eq_none
    simp only [fmtISOSec, renderSpaceMilli]
    rw [runToksAux_dash dt hy hm hd]
    exact runToksAux_lit_ne _ _ _ _ _ (by decide)
  have h3 : runToks fmtSpaceSec (renderSpaceMilli dt) = none := by
    apply runToks_eq_none
    simp only [fmtSpaceSec, renderSpaceMilli]
    rw [runToksAux_dash dt hy hm hd, runToksAux_lit_ok, runToksAux_time dt hh hmi hs]
    exact runToksAux_nil_cons _ _ _
  have h4 : runToks fmtDateOnly (renderSpaceMilli dt) = none := by
    apply runToks_eq_none
    simp only [fmtDateOnly, renderSpaceMilli]
    rw [runToksAux_dash dt hy hm hd]
    exact runToksAux_nil_cons _ _ _
  have h5 : runToks fmtUS (renderSpaceMilli dt) = none := by
    apply runToks_eq_none
    simp only [fmtUS, renderSpaceMilli, renderDash]
    exact runToksAux_month2_on_pad4 dt.year hy _ _ _
  have h6 : runToks fmtEU (renderSpaceMilli dt) = none := by
    apply runToks_eq_none
    simp only [fmtEU, renderSpaceMilli, renderDash]
    exact runToksAux_day2_on_pad4 dt.year hy _ _ _
  have h7 : runToks fmtYMDSlash (renderSpaceMilli dt) = none := by
    apply runToks_eq_none
    simp only [fmtYMDSlash, renderSpaceMilli, renderDash]
    rw [runToksAux_year4_ok dt.year hy]
    exact runToksAux_lit_ne _ _ _ _ _ (by decide)
  unfold parseDateL
  rw [if_neg (by simp [renderSpaceMilli]; exact renderDash_ne_nil dt _)]
  simp only [goDateFormats]
  rw [firstMatch_cons_none _ _ _ h0, firstMatch_cons_none _ _ _ h1,
    firstMatch_cons_none _ _ _ h2, firstMatch_cons_none _ _ _ h3,
    firstMatch_cons_none _ _ _ h4, firstMatch_cons_none _ _ _ h5,
    firstMatch_cons_none _ _ _ h6, firstMatch_cons_none _ _ _ h7,
    firstMatch_cons_some _ _ _ _ hrep]
  rfl

theorem parseDateL_renderSpaceMicro (dt : RawDT) (hv : validDT dt)
    (hrep : runToks fmtSpaceMicro (renderSpaceMicro dt) = some dt) :
    parseDateL (renderSpaceMicro dt) = dt := by
  obtain ⟨hy, hm, hd, hh, hmi, hs, hms, hus⟩ := validDT_bounds dt hv
  have h0 : runToks fmtISOMilliZ (renderSpaceMicro dt) = none := by
    apply runToks_eq_none
    simp only [fmtISOMilliZ, renderSpaceMicro]
    rw [runToksAux_dash dt hy hm hd]
    exact runToksAux_lit_ne _ _ _ _ _ (by decide)
  have h1 : runToks fmtISOSecZ (renderSpaceMicro dt) = none := by
    apply runToks_eq_none
    simp only [fmtISOSecZ, renderSpaceMicro]
    rw [runToksAux_dash dt hy hm hd]
    exact runToksAux_lit_ne _ _ _ _ _ (by decide)
  have h2 : runToks fmtISOSec (renderSpaceMicro dt) = none := by
    apply runToks_eq_none
    simp only [fmtISOSec, renderSpaceMicro]
    rw [runToksAux_dash dt hy hm hd]
    exact runToksAux_lit_ne _ _ _ _ _ (by decide)
  have h3 : runToks fmtSpaceSec (renderSpaceMicro dt) = none := by
    apply runToks_eq_none
    simp only [fmtSpaceSec, renderSpaceMicro]
    rw [runToksAux_dash dt hy hm hd, runToksAux_lit_ok, runToksAux_time dt hh hmi hs]
    exact runToksAux_nil_cons _ _ _
  have h4 : runToks fmtDateOnly (renderSpaceMicro dt) = none := by
    apply runToks_eq_none
    simp only [fmtDateOnly, renderSpaceMicro]
    rw [runToksAux_dash dt hy hm hd]
    exact runToksAux_nil_cons _ _ _
  have h5 : runToks fmtUS (renderSpaceMicro dt) = none := by
    apply runToks_eq_none
    simp only [fmtUS, renderSpaceMicro, renderDash]
    exact runToksAux_month2_on_pad4 dt.year hy _ _ _
  have h6 : runToks fmtEU (renderSpaceMicro dt) = none := by
    apply runToks_eq_none
    simp only [fmtEU, renderSpaceMicro, renderDash]
    exact runToksAux_day2_on_pad4 dt.year hy _ _ _
  have h7 : runToks fmtYMDSlash (renderSpaceMicro dt) = none := by
    apply runToks_eq_none
    simp only [fmtYMDSlash, renderSpaceMicro, renderDash]
    rw [runToksAux_year4_ok dt.year hy]
    exact runToksAux_lit_ne _ _ _ _ _ (by decide)
  have h8 : runToks fmtSpaceMilli (renderSpaceMicro dt) = none := by
    apply runToks_eq_none
    simp only [fmtSpaceMilli, fmtSpaceSec, renderSpaceMicro]
    rw [show ([.year4, .lit '-', .month2, .lit '-', .day2, .lit ' ', .hourNum, .lit ':',
        .minute2, .lit ':', .second2] ++ [DTok.frac 3]) =
      [DTok.year4, .lit '-', .month2, .lit '-', .day2, .lit ' ', .hourNum, .lit ':',
        .minute2, .lit ':', .second2, .frac 3] from rfl]
    rw [runToksAux_dash dt hy hm hd, runToksAux_lit_ok, runToksAux_time dt hh hmi hs]
    rw [runToksAux_frac3_on_pad6_last (dt.nanos / 1000) hus]
    simp [pad3, runToksAux]
  unfold parseDateL
  rw [if_neg (by simp [renderSpaceMicro]; exact renderDash_ne_nil dt _)]
  simp only [goDateFormats]
  rw [firstMatch_cons_none _ _ _ h0, firstMatch_cons_none _ _ _ h1,
    firstMatch_cons_none _ _ _ h2, firstMatch_cons_none _ _ _ h3,
    firstMatch_cons_none _ _ _ h4, firstMatch_cons_none _ _ _ h5,
    firstMatch_cons_none _ _ _ h6, firstMatch_cons_none _ _ _ h7,
    firstMatch_cons_none _ _ _ h8, firstMatch_cons_some _ _ _ _ hrep]
  rfl

theorem parseDateL_renderISOMicroZ (dt : RawDT) (hv : validDT dt)
    (hrep : runToks fmtISOMicroZ (renderISOMicroZ dt) = some dt) :
    parseDateL (renderISOMicroZ dt) = dt := by
  obtain ⟨hy, hm, hd, hh, hmi, hs, hms, hus⟩ := validDT_bounds dt hv
  have h0 : runToks fmtISOMilliZ (renderISOMicroZ dt) = none := by
    apply runToks_eq_none
    simp only [fmtISOMilliZ, renderISOMicroZ]
    rw [runToksAux_dash dt hy hm hd, runToksAux_lit_ok, runToksAux_time dt hh hmi hs]
    rw [runToksAux_frac3_on_pad6 (dt.nanos / 1000) hus]
    simp only [pad3, List.cons_append]
    exact runToksAux_lit_ne _ _ _ _ _
      (digitChar_ne_of_not_digit _ (by omega) _ (by decide))
  have h1 : runToks fmtISOSecZ (renderISOMicroZ dt) = none := by
    apply runToks_eq_none
    simp only [fmtISOSecZ, renderISOMicroZ]
    rw [runToksAux_dash dt hy hm hd, runToksAux_lit_ok, runToksAux_time dt hh hmi hs]
    exact runToksAux_lit_ne _ _ _ _ _ (by decide)
  have h2 : runToks fmtISOSec (renderISOMicroZ dt) = none := by
    apply runToks_eq_none
    simp only [fmtISOSec, renderISOMicroZ]
    rw [runToksAux_dash dt hy hm hd, runToksAux_lit_ok, runToksAux_time dt hh hmi hs]
    exact runToksAux_nil_cons _ _ _
  have h3 : runToks fmtSpaceSec (renderISOMicroZ dt) = none := by
    apply runToks_eq_none
    simp only [fmtSpaceSec, renderISOMicroZ]
    rw [runToksAux_dash dt hy hm hd]
    exact runToksAux_lit_ne _ _ _ _ _ (by decide)
  have h4 : runToks fmtDateOnly (renderISOMicroZ dt) = none := by
    apply runToks_eq_none
    simp only [fmtDateOnly, renderISOMicroZ]
    rw [runToksAux_dash dt hy hm hd]
    exact runToksAux_nil_cons _ _ _
  have h5 : runToks fmtUS (renderISOMicroZ dt) = none := by
    apply runToks_eq_none
    simp only [fmtUS, renderISOMicroZ, renderDash]
    exact runToksAux_month2_on_pad4 dt.year hy _ _ _
  have h6 : runToks fmtEU (renderISOMicroZ dt) = none := by
    apply runToks_eq_none
    simp only [fmtEU, renderISOMicroZ, renderDash]
    exact runToksAux_day2_on_pad4 dt.year hy _ _ _
  have h7 : runToks fmtYMDSlash (renderISOMicroZ dt) = none := by
    apply runToks_eq_none
    simp only [fmtYMDSlash, renderISOMicroZ, renderDash]
    rw [runToksAux_year4_ok dt.year hy]
    exact runToksAux_lit_ne _ _ _ _ _ (by decide)
  have h8 : runToks fmtSpaceMilli (renderISOMicroZ dt) = none := by
    apply runToks_eq_none
    simp only [fmtSpaceMilli, fmtSpaceSec, renderISOMicroZ, List.append_assoc,
      List.cons_append, List.nil_append]
    rw [runToksAux_dash dt hy hm hd]
    exact runToksAux_lit_ne _ _ _ _ _ (by decide)
  have h9 : runToks fmtSpaceMicro (renderISOMicroZ dt) = none := by
    apply runToks_eq_none
    simp only [fmtSpaceMicro, fmtSpaceSec, renderISOMicroZ, List.append_assoc,
      List.cons_append, List.nil_append]
    rw [runToksAux_dash dt hy hm hd]
    exact runToksAux_lit_ne _ _ _ _ _ (by decide)
  unfold parseDateL
  rw [if_neg (by simp [renderISOMicroZ]; exact renderDash_ne_nil dt _)]
  simp only [goDateFormats]
  rw [firstMatch_cons_none _ _ _ h0, firstMatch_cons_none _ _ _ h1,
    firstMatch_cons_none _ _ _ h2, firstMatch_cons_none _ _ _ h3,
    firstMatch_cons_none _ _ _ h4, firstMatch_cons_none _ _ _ h5,
    firstMatch_cons_none _ _ _ h6, firstMatch_cons_none _ _ _ h7,
    firstMatch_cons_none _ _ _ h8, firstMatch_cons_none _ _ _ h9,
    firstMatch_cons_some _ _ _ _ hrep]
  rfl

theorem parseDateL_renderISOMicro (dt : RawDT) (hv : validDT dt)
    (hrep : runToks fmtISOMicro (renderISOMicro dt) = some dt) :
    parseDateL (renderISOMicro dt) = dt := by
  obtain ⟨hy, hm, hd, hh, hmi, hs, hms, hus⟩ := validDT_bounds dt hv
  have h0 : runToks fmtISOMilliZ (renderISOMicro dt) = none := by
    apply runToks_eq_none
    simp only [fmtISOMilliZ, renderISOMicro]
    rw [runToksAux_dash dt hy hm hd, runToksAux_lit_ok, runToksAux_time dt hh hmi hs]
    rw [runToksAux_frac3_on_pad6_last (dt.nanos / 1000) hus]
    simp only [pad3]
    exact runToksAux_lit_ne _ _ _ _ _
      (digitChar_ne_of_not_digit _ (by omega) _ (by decide))
  have h1 : runToks fmtISOSecZ (renderISOMicro dt) = none := by
    apply runToks_eq_none
    simp only [fmtISOSecZ, renderISOMicro]
    rw [runToksAux_dash dt hy hm hd, runToksAux_lit_ok, runToksAux_time dt hh hmi hs]
    exact runToksAux_lit_ne _ _ _ _ _ (by decide)
  have h2 : runToks fmtISOSec (renderISOMicro dt) = none := by
    apply runToks_eq_none
    simp only [fmtISOSec, renderISOMicro]
    rw [runToksAux_dash dt hy hm hd, runToksAux_lit_ok, runToksAux_time dt hh hmi hs]
    exact runToksAux_nil_cons _ _ _
  have h3 : runToks fmtSpaceSec (renderISOMicro dt) = none := by
    apply runToks_eq_none
    simp only [fmtSpaceSec, renderISOMicro]
    rw [runToksAux_dash dt hy hm hd]
    exact runToksAux_lit_ne _ _ _ _ _ (by decide)
  have h4 : runToks fmtDateOnly (renderISOMicro dt) = none := by
    apply runToks_eq_none
    simp only [fmtDateOnly, renderISOMicro]
    rw [runToksAux_dash dt hy hm hd]
    exact runToksAux_nil_cons _ _ _
  have h5 : runToks fmtUS (renderISOMicro dt) = none := by
    apply runToks_eq_none
    simp only [fmtUS, renderISOMicro, renderDash]
    exact runToksAux_month2_on_pad4 dt.year hy _ _ _
  have h6 : runToks fmtEU (renderISOMicro dt) = none := by
    apply runToks_eq_none
    simp only [fmtEU, renderISOMicro, renderDash]
    exact runToksAux_day2_on_pad4 dt.year hy _ _ _
  have h7 : runToks fmtYMDSlash (renderISOMicro dt) = none := by
    apply runToks_eq_none
    simp only [fmtYMDSlash, renderISOMicro, renderDash]
    rw [runToksAux_year4_ok dt.year hy]
    exact runToksAux_lit_ne _ _ _ _ _ (by decide)
  have h8 : runToks fmtSpaceMilli (renderISOMicro dt) = none := by
    apply runToks_eq_none
    simp only [fmtSpaceMilli, fmtSpaceSec, renderISOMicro, List.append_assoc,
      List.cons_append, List.nil_append]
    rw [runToksAux_dash dt hy hm hd]
    exact runToksAux_lit_ne _ _ _ _ _ (by decide)
  have h9 : runToks fmtSpaceMicro (renderISOMicro dt) = none := by
    apply runToks_eq_none
    simp only [fmtSpaceMicro, fmtSpaceSec, renderISOMicro, List.append_assoc,
      List.cons_append, List.nil_append]
    rw [runToksAux_dash dt hy hm hd]
    exact runToksAux_lit_ne _ _ _ _ _ (by decide)
  have h10 : runToks fmtISOMicroZ (renderISOMicro dt) = none := by
    apply runToks_eq_none
    simp only [fmtISOMicroZ, renderISOMicro]
    rw [runToksAux_dash dt hy hm hd, runToksAux_lit_ok, runToksAux_time dt hh hmi hs]
    rw [runToksAux_frac6_last (dt.nanos / 1000) hus]
    exact runToksAux_lit_nil _ _ _
  unfold parseDateL
  rw [if_neg (by simp [renderISOMicro]; exact renderDash_ne_nil dt _)]
  simp only [goDateFormats]
  rw [firstMatch_cons_none _ _ _ h0, firstMatch_cons_none _ _ _ h1,
    firstMatch_cons_none _ _ _ h2, firstMatch_cons_none _ _ _ h3,
    firstMatch_cons_none _ _ _ h4, firstMatch_cons_none _ _ _ h5,
    firstMatch_cons_none _ _ _ h6, firstMatch_cons_none _ _ _ h7,
    firstMatch_cons_none _ _ _ h8, firstMatch_cons_none _ _ _ h9,
    firstMatch_cons_none _ _ _ h10, firstMatch_cons_some _ _ _ _ hrep]
  rfl

/-- C3 (counterexample): April 3, 2023 can be written in both slash formats
(each rendering round-trips under its own layout), yet `parseDate` maps the
European rendering `03/04/2023` and the US rendering `04/03/2023` to
different instants — the US layout is tried first and consumes the European
rendering as March 4. -/
theorem C3_counterexample :
    runToks fmtEU (renderEU ⟨2023, 4, 3, 0, 0, 0, 0⟩) = some ⟨2023, 4, 3, 0, 0, 0, 0⟩ ∧
    runToks fmtUS (renderUS ⟨2023, 4, 3, 0, 0, 0, 0⟩) = some ⟨2023, 4, 3, 0, 0, 0, 0⟩ ∧
    String.mk (renderEU ⟨2023, 4, 3, 0, 0, 0, 0⟩) = "03/04/2023" ∧
    String.mk (renderUS ⟨2023, 4, 3, 0, 0, 0, 0⟩) = "04/03/2023" ∧
    parseDate "03/04/2023" ≠ parseDate "04/03/2023" := by
  exact ⟨by decide, by decide, by decide, by decide, by decide⟩

/-- C3 (amended): for every valid instant and any two of the twelve
recognized format/rendering pairs in which the instant can be written (the
rendering round-trips under its own layout), `parseDate` returns the same
absolute instant on both renderings — except that a European slash rendering
is excluded when the instant's day is at most 12 and differs from its month,
because the earlier-tried US layout then misreads it.  In each allowed case
the common value is the instant itself. -/
theorem C3_parseDate_format_agreement :
    ∀ (dt : RawDT) (p1 p2 : List DTok × List Char),
      p1 ∈ goRenderings dt → p2 ∈ goRenderings dt → validDT dt →
      runToks p1.1 p1.2 = some dt → runToks p2.1 p2.2 = some dt →
      (p1.1 = fmtEU → 13 ≤ dt.day ∨ dt.day = dt.month) →
      (p2.1 = fmtEU → 13 ≤ dt.day ∨ dt.day = dt.month) →
      parseDateL p1.2 = parseDateL p2.2 := by
  have core : ∀ (dt : RawDT) (p : List DTok × List Char), p ∈ goRenderings dt →
      validDT dt → runToks p.1 p.2 = some dt →
      (p.1 = fmtEU → 13 ≤ dt.day ∨ dt.day = dt.month) →
      parseDateL p.2 = dt := by
    intro dt p hp hv hrep heu
    simp only [goRenderings, List.mem_cons, List.not_mem_nil, or_false] at hp
    rcases hp with h | h | h | h | h | h | h | h | h | h | h | h <;> subst h
    · exact parseDateL_renderISOMilliZ dt hrep
    · exact parseDateL_renderISOSecZ dt hv hrep
    · exact parseDateL_renderISOSec dt hv hrep
    · exact parseDateL_renderSpaceSec dt hv hrep
    · exact parseDateL_renderDateOnly dt hv hrep
    · exact parseDateL_renderUS dt hv hrep
    · exact parseDateL_renderEU dt hv hrep (heu rfl)
    · exact parseDateL_renderYMDSlash dt hv hrep
    · exact parseDateL_renderSpaceMilli dt hv hrep
    · exact parseDateL_renderSpaceMicro dt hv hrep
    · exact parseDateL_renderISOMicroZ dt hv hrep
    · exact parseDateL_renderISOMicro dt hv hrep
  intro dt p1 p2 h1 h2 hv hr1 hr2 he1 he2
  rw [core dt p1 h1 hv hr1 he1, core dt p2 h2 hv hr2 he2]

/-- Witness for `C3_parseDate_format_agreement`: the spec's own scenario,
May 1, 2023 written as `2023-05-01` and as `2023-05-01T00:00:00.000Z`. -/
theorem C3_witness :
    parseDateL (renderDateOnly ⟨2023, 5, 1, 0, 0, 0, 0⟩) =
      parseDateL (renderISOMilliZ ⟨2023, 5, 1, 0, 0, 0, 0⟩) :=
  C3_parseDate_format_agreement ⟨2023, 5, 1, 0, 0, 0, 0⟩
    (fmtDateOnly, renderDateOnly ⟨2023, 5, 1, 0, 0, 0, 0⟩)
    (fmtISOMilliZ, renderISOMilliZ ⟨2023, 5, 1, 0, 0, 0, 0⟩)
    (by simp [goRenderings]) (by simp [goRenderings]) (by unfold validDT; decide)
    (by decide) (by decide) (fun h => absurd h (by decide)) (fun h => absurd h (by decide))

end PPS
